import Mathlib

/-!
Verification of the MD-Ticket `pm-tool` integration engine.

This file shallowly embeds the JavaScript sources of the pm-tool CLI
(`_tools/lib/pm-tool/**`) in Lean 4:

* strings are embedded as `List Char` (JS strings are sequences of code
  units; all inputs of interest here are plain text),
* JS `undefined` is embedded as `Option.none` (or `JOpt.absent` where the
  code distinguishes `undefined` from `null`),
* thrown JS errors are embedded as `Except PmError`,
* network I/O is embedded by passing the response for each attempt as an
  explicit argument (`Nat → ApiResp _`) and returning the list of issued
  requests alongside the result, so "no network call" is a provable
  statement about the returned request list.

Each definition is a direct translation of the function of the same name
in the repository; the source file is named in its doc comment.
-/

set_option maxRecDepth 10000

/-- Str is the embedding of JavaScript strings: a list of characters. -/
abbrev Str := List Char

/-- cs converts a Lean string literal to the `Str` embedding. -/
def cs (s : String) : Str := s.toList

/-- jsIsSpace models the JavaScript whitespace class (as used by `\s`,
`String.prototype.trim`): space, tab, LF, CR, vertical tab, form feed. -/
def jsIsSpace (c : Char) : Bool :=
  c = ' ' || c = '\t' || c = '\n' || c = '\r' || c = '\x0b' || c = '\x0c'

/-- jsTrimLeft drops leading JS whitespace, as the left half of
`String.prototype.trim`. -/
def jsTrimLeft (s : Str) : Str := s.dropWhile jsIsSpace

/-- jsTrim models `String.prototype.trim`: drop leading and trailing
JS whitespace. -/
def jsTrim (s : Str) : Str := ((s.dropWhile jsIsSpace).reverse.dropWhile jsIsSpace).reverse

/-- truthyS models JavaScript truthiness of a possibly-undefined string:
`undefined` and the empty string are falsy. -/
def truthyS : Option Str → Bool
  | none => false
  | some s => s ≠ []

/-- JOpt models a JavaScript value that can be `undefined`, `null`, or a
proper value, for code that distinguishes the three (e.g. the
`!== null && !== undefined` guards and `removeUndefinedFields`). -/
inductive JOpt (α : Type) : Type
  | absent : JOpt α
  | jnull : JOpt α
  | val : α → JOpt α
deriving DecidableEq, Repr

/-- jTruthyS models JS truthiness of a string-valued field that can also be
`undefined` or `null` (all falsy, as is the empty string). -/
def jTruthyS : JOpt Str → Bool
  | .val s => s ≠ []
  | _ => false

/-- PmError embeds a thrown JavaScript error as seen by the pm-tool code:
its `name`, `code` and `message` fields, the optional `statusCode` carried
by `ApiError`, and whether it is an `instanceof PmToolError`
(`_tools/lib/pm-tool/common/error.js`). -/
structure PmError where
  name : Str
  code : Str
  message : Str
  statusCode : Option Nat
  pmtool : Bool
deriving DecidableEq, Repr

/-- mkPmToolError embeds `new PmToolError(message, code)` from
`common/error.js`. -/
def mkPmToolError (message : Str) (code : Str) : PmError :=
  { name := cs "PmToolError", code := code, message := message,
    statusCode := none, pmtool := true }

/-- mkAuthErr embeds `new AuthenticationError(message)` from
`common/error.js` (code `AUTH_ERROR`). -/
def mkAuthErr (message : Str) : PmError :=
  { name := cs "AuthenticationError", code := cs "AUTH_ERROR",
    message := message, statusCode := none, pmtool := true }

/-- mkApiErr embeds `new ApiError(message, statusCode)` from
`common/error.js` (code `API_ERROR`). -/
def mkApiErr (message : Str) (statusCode : Nat) : PmError :=
  { name := cs "ApiError", code := cs "API_ERROR", message := message,
    statusCode := some statusCode, pmtool := true }

/-- mkNetworkErr embeds `new NetworkError(message)` from
`common/error.js` (code `NETWORK_ERROR`). -/
def mkNetworkErr (message : Str) : PmError :=
  { name := cs "NetworkError", code := cs "NETWORK_ERROR",
    message := message, statusCode := none, pmtool := true }

/-- mkValidationErr embeds `new ValidationError(message)` from
`common/error.js` (code `VALIDATION_ERROR`). -/
def mkValidationErr (message : Str) : PmError :=
  { name := cs "ValidationError", code := cs "VALIDATION_ERROR",
    message := message, statusCode := none, pmtool := true }

/-- typeErrorFetch embeds the `TypeError` thrown by the WHATWG `fetch`
function on a transport failure (DNS failure, connection refused, ...);
its message contains the word "fetch", which `normalizeError` and the
Backlog error handler test for. -/
def typeErrorFetch : PmError :=
  { name := cs "TypeError", code := [], message := cs "fetch failed",
    statusCode := none, pmtool := false }

/-- strInfix decides whether `needle` occurs as a contiguous substring of
`hay`; it embeds `String.prototype.includes`. -/
def strInfix (needle hay : Str) : Bool := decide (needle <:+: hay)

/-- normalizeError embeds `normalizeError` from `common/error.js`:
a `PmToolError` passes through, a fetch `TypeError` becomes a
`NetworkError`, anything else is wrapped as a generic `PmToolError` with
code `UNKNOWN_ERROR`. -/
def normalizeError (e : PmError) : PmError :=
  if e.pmtool then e
  else if e.name = cs "TypeError" && strInfix (cs "fetch") e.message then
    mkNetworkErr (cs "ネットワークエラーが発生しました")
  else
    mkPmToolError e.message (cs "UNKNOWN_ERROR")

/-- retryAux embeds the attempt loop of `retry` in `common/retry.js`
(`src/unnamed/part_008`, lines 40-67).  `attempt` is the current value of
the loop counter and `fuel` is `maxRetries - attempt`, so `fuel = 0` means
this is the last allowed attempt.  The function for attempt `i` is `fn i`;
the returned `Nat` is the total number of invocations of `fn`.  The sleep
and backoff-delay computation have no observable effect on the result and
are not modelled. -/
def retryAux (fn : Nat → Except ε α) (shouldRetry : ε → Bool) (attempt : Nat) :
    Nat → Except ε α × Nat
  | 0 =>
    -- attempt === maxRetries: on failure, break out and throw lastError
    (match fn attempt with
     | .ok a => (.ok a, attempt + 1)
     | .error e => (.error e, attempt + 1))
  | fuel + 1 =>
    match fn attempt with
    | .ok a => (.ok a, attempt + 1)
    | .error e =>
      if shouldRetry e then retryAux fn shouldRetry (attempt + 1) fuel
      else (.error e, attempt + 1)

/-- defaultMaxRetries is the default of the `maxRetries` option of `retry`
(`src/unnamed/part_008`, line 30). -/
def defaultMaxRetries : Nat := 3

/-- retryModel embeds `retry(fn, options)` from `common/retry.js`
(`src/unnamed/part_008`): run `fn` for attempts `0 .. maxRetries`,
stopping early on success or when `shouldRetry` rejects a non-final
failure; the propagated error is the one dictated by the loop.  Returns
the result together with the number of invocations of `fn`. -/
def retryModel (fn : Nat → Except ε α) (maxRetries : Nat) (shouldRetry : ε → Bool) :
    Except ε α × Nat :=
  retryAux fn shouldRetry 0 maxRetries

/-- isRateLim embeds `isRateLimitError` from `common/retry.js`
(`src/unnamed/part_008`, lines 79-81): `error.statusCode === 429`. -/
def isRateLim (e : PmError) : Bool := e.statusCode = some 429

/-- isTransientError embeds `isTransientError` from `common/retry.js`
(`src/unnamed/part_008`, lines 89-111): rate limit, 5xx status, or a
`NetworkError`.  The `ETIMEDOUT`/`ESOCKETTIMEDOUT` clause tests a Node
socket-error `code` that no error built by this engine carries, so it is
`false` on every `PmError` of the embedding. -/
def isTransientError (e : PmError) : Bool :=
  isRateLim e ||
  (match e.statusCode with
   | some sc => 500 ≤ sc && sc < 600
   | none => false) ||
  e.name = cs "NetworkError"

theorem retryAux_all_fail (fn : Nat → Except ε α) (e : Nat → ε)
    (hf : ∀ i, fn i = .error (e i)) :
    ∀ fuel attempt, retryAux fn (fun _ => true) attempt fuel =
      (.error (e (attempt + fuel)), attempt + fuel + 1) := by
  intro fuel
  induction fuel with
  | zero => intro attempt; simp [retryAux, hf]
  | succ n ih =>
    intro attempt
    rw [retryAux, hf attempt]
    simp only [if_pos rfl]
    have h2 := ih (attempt + 1)
    rw [h2]
    have h1 : attempt + 1 + n = attempt + (n + 1) := by omega
    rw [h1]
    simp

theorem retryModel_all_fail (fn : Nat → Except ε α) (e : Nat → ε) (maxRetries : Nat)
    (hf : ∀ i, fn i = .error (e i)) :
    retryModel fn maxRetries (fun _ => true) = (.error (e maxRetries), maxRetries + 1) := by
  have h := retryAux_all_fail fn e hf maxRetries 0
  simpa [retryModel] using h

theorem retryModel_no_retry (fn : Nat → Except ε α) (e0 : ε) (maxRetries : Nat)
    (shouldRetry : ε → Bool) (hf : fn 0 = .error e0) (hs : shouldRetry e0 = false) :
    retryModel fn maxRetries shouldRetry = (.error e0, 1) := by
  cases maxRetries with
  | zero => simp [retryModel, retryAux, hf]
  | succ n => simp [retryModel, retryAux, hf, hs]

/-- ApiResp is the embedding of one HTTP exchange as observed by the
response handlers: a successful (2xx) response carrying the parsed JSON
payload, a non-2xx response carrying status, status text and error
messages extracted from the body, or a transport failure (the WHATWG
`fetch` promise rejecting with a `TypeError`). -/
inductive ApiResp (α : Type) : Type
  | ok : α → ApiResp α
  | http : Nat → Str → Str → ApiResp α
  | netfail : ApiResp α

/-- classifyResp embeds the response-classification cascade of
`apiRequest` in `common/api.js`: 401/403 to `AuthenticationError`, 429 and
5xx and other non-2xx to `ApiError`, transport failures (caught as
`TypeError`) to `NetworkError`.  `ApiResp.http` only models non-2xx
responses; 2xx responses are `ApiResp.ok` with the parsed body. -/
def classifyResp : ApiResp α → Except PmError α
  | .ok v => .ok v
  | .http status statusText _bodyText =>
    if status = 401 then
      .error (mkAuthErr (cs "認証に失敗しました。APIキーまたはトークンを確認してください"))
    else if status = 403 then
      .error (mkAuthErr (cs "アクセス権限がありません"))
    else if status = 429 then
      .error (mkApiErr (cs "レート制限に達しました。しばらく待ってから再試行してください") 429)
    else if 500 ≤ status then
      .error (mkApiErr (cs "サーバーエラーが発生しました") status)
    else
      .error (mkApiErr (cs "APIエラー: " ++ statusText) status)
  | .netfail => .error (mkNetworkErr (cs "ネットワークエラーが発生しました"))

/-- apiRequest embeds `apiRequest` from `common/api.js`: each attempt
issues the HTTP call (whose response for attempt `i` is `net i`) and
classifies it; the whole thing is wrapped in `retry` and a final
`normalizeError`.  Returns the result and the number of attempts (=
number of issued requests).  `maxRetries`/`shouldRetry` default to
`3`/`isTransientError` at the call sites, as in the source. -/
def apiRequest (net : Nat → ApiResp α) (maxRetries : Nat) (shouldRetry : PmError → Bool) :
    Except PmError α × Nat :=
  let r := retryModel (fun i => classifyResp (net i)) maxRetries shouldRetry
  (match r.1 with
   | .ok v => .ok v
   | .error e => .error (normalizeError e), r.2)

/-- base64Table is the base64 alphabet used by `Buffer.toString('base64')`. -/
def base64Table : Str := cs "ABCDEFGHIJKLMNOPQRSTUVWXYZabcdefghijklmnopqrstuvwxyz0123456789+/"

/-- b64char maps a 6-bit value to its base64 digit. -/
def b64char (n : Nat) : Char := base64Table.getD n 'A'

/-- b64chunk encodes a final group of one, two or three bytes, padding
with `=` as base64 requires. -/
def b64chunk : List Nat → Str
  | [a, b, c2] => [b64char (a / 4), b64char (a % 4 * 16 + b / 16),
                   b64char (b % 16 * 4 + c2 / 64), b64char (c2 % 64)]
  | [a, b] => [b64char (a / 4), b64char (a % 4 * 16 + b / 16), b64char (b % 16 * 4), '=']
  | [a] => [b64char (a / 4), b64char (a % 4 * 16), '=', '=']
  | _ => []

/-- b64encode encodes a byte sequence in base64. -/
def b64encode : List Nat → Str
  | [] => []
  | [a] => b64chunk [a]
  | [a, b] => b64chunk [a, b]
  | a :: b :: c2 :: rest => b64chunk [a, b, c2] ++ b64encode rest

/-- utf8Bytes lists the UTF-8 bytes of a string, as `Buffer.from` uses. -/
def utf8Bytes (s : Str) : List Nat := (String.mk s).toUTF8.toList.map (fun b => b.toNat)

/-- createBasicAuthHeader embeds `createBasicAuthHeader` from
`common/api.js`: `Basic` plus the base64 of `username:password`. -/
def createBasicAuthHeader (username password : Str) : Str :=
  cs "Basic " ++ b64encode (utf8Bytes (username ++ ':' :: password))

/-- HttpReq records one issued HTTP request: its method and headers
(the URL string is not needed by any claim and is omitted from the
record to keep request traces small). -/
structure HttpReq where
  method : Str
  headers : List (Str × Str)
deriving DecidableEq, Repr

/-- RedmineConfig embeds the `integration.pm_tool.redmine` settings
object: each field is `none` when absent. -/
structure RedmineConfig where
  url : Option Str
  api_key : Option Str
  username : Option Str
  password : Option Str

/-- redmineAuthHeaders embeds the authentication-header construction
shared by `fetchTicket` (`src/unnamed/part_003`, lines 37-44) and
`updateTicket` (`src/unnamed/part_004`, lines 61-68): the API key header
when an API key is configured, otherwise a Basic `Authorization` header. -/
def redmineAuthHeaders (cfg : RedmineConfig) : List (Str × Str) :=
  if truthyS cfg.api_key then
    [(cs "X-Redmine-API-Key", cfg.api_key.getD [])]
  else
    [(cs "Authorization", createBasicAuthHeader (cfg.username.getD []) (cfg.password.getD []))]

/-- NameObj embeds the `{id, name}` sub-objects of a Redmine issue. -/
structure NameObj where
  id : Int
  name : Str
deriving DecidableEq, Repr

/-- RedmineIssue embeds the `issue` object of a Redmine `GET
/issues/id.json` response, with exactly the fields read by
`formatAsYamlFrontmatter` (`src/unnamed/part_003`).  Object-valued fields
use `Option` (the code only tests their truthiness); scalar fields use
`JOpt` because `removeUndefinedFields` distinguishes `undefined` from
`null`. -/
structure RedmineIssue where
  id : Int
  project : Option NameObj
  tracker : Option NameObj
  status : Option NameObj
  priority : Option NameObj
  author : Option NameObj
  assigned_to : Option NameObj
  category : Option NameObj
  estimated_hours : JOpt Int
  start_date : JOpt Str
  due_date : JOpt Str
  done_ratio : JOpt Int
  created_on : JOpt Str
  updated_on : JOpt Str
  description : JOpt Str
  subject : JOpt Str

/-- MVal is a metadata value in a fetched LocalTicket: a number, a
string, an `{id, name}` object, an explicit `null`, or `undefined`
(before `removeUndefinedFields` deletes it). -/
inductive MVal : Type
  | mInt : Int → MVal
  | mStr : Str → MVal
  | mObj : Int → Str → MVal
  | mNull : MVal
  | mAbsent : MVal
deriving DecidableEq, Repr

/-- mvIsAbsent tests whether a metadata value is `undefined`. -/
def mvIsAbsent : MVal → Bool
  | .mAbsent => true
  | _ => false

/-- mOfObj embeds `issue.field ? {id, name} : undefined`. -/
def mOfObj : Option NameObj → MVal
  | some o => .mObj o.id o.name
  | none => .mAbsent

/-- mOfJInt embeds copying a possibly-undefined, possibly-null number. -/
def mOfJInt : JOpt Int → MVal
  | .absent => .mAbsent
  | .jnull => .mNull
  | .val i => .mInt i

/-- mOfJStr embeds copying a possibly-undefined, possibly-null string. -/
def mOfJStr : JOpt Str → MVal
  | .absent => .mAbsent
  | .jnull => .mNull
  | .val s => .mStr s

/-- LocalTicket is the `{meta, body, title}` result shape produced by the
fetch operations. -/
structure LocalTicket where
  meta : List (Str × MVal)
  body : Str
  title : Str
deriving DecidableEq, Repr

/-- redmineFormatMeta embeds the `meta` object built by
`formatAsYamlFrontmatter` in `src/unnamed/part_003` (lines 61-101): the
field list in source order, then `removeUndefinedFields`, which deletes
exactly the `undefined` entries (the nested `{id, name}` objects contain
no `undefined` fields, and `null` entries are not recursed into). -/
def redmineFormatMeta (issue : RedmineIssue) : List (Str × MVal) :=
  List.filter (fun kv => !mvIsAbsent kv.2)
    [(cs "id", .mInt issue.id),
     (cs "project", mOfObj issue.project),
     (cs "tracker", mOfObj issue.tracker),
     (cs "status", mOfObj issue.status),
     (cs "priority", mOfObj issue.priority),
     (cs "author", mOfObj issue.author),
     (cs "assigned_to", mOfObj issue.assigned_to),
     (cs "category", mOfObj issue.category),
     (cs "estimated_hours", mOfJInt issue.estimated_hours),
     (cs "start_date", mOfJStr issue.start_date),
     (cs "due_date", mOfJStr issue.due_date),
     (cs "done_ratio", mOfJInt issue.done_ratio),
     (cs "created_on", mOfJStr issue.created_on),
     (cs "updated_on", mOfJStr issue.updated_on)]

/-- jsOrEmptyStr embeds `x || ''` for a possibly-undefined/null string
`x` (for a proper string the expression is the string itself, as the
empty string maps to itself). -/
def jsOrEmptyStr : JOpt Str → Str
  | .val s => s
  | _ => []

/-- redmineFormatAsYamlFm embeds `formatAsYamlFrontmatter` from
`src/unnamed/part_003` (lines 61-111): the filtered metadata, the body
`issue.description || ''` (no line-ending normalization in this
generation of the code), and the title `issue.subject || ''`. -/
def redmineFormatAsYamlFm (issue : RedmineIssue) : LocalTicket :=
  { meta := redmineFormatMeta issue,
    body := jsOrEmptyStr issue.description,
    title := jsOrEmptyStr issue.subject }

/-- crlfPass embeds `replace(/\r\n/g, '\n')`: a left-to-right scan
rewriting each CRLF pair to LF. -/
def crlfPass : Str → Str
  | '\r' :: '\n' :: rest => '\n' :: crlfPass rest
  | c :: rest => c :: crlfPass rest
  | [] => []

/-- normEol embeds `s.replace(/\r\n/g, '\n').replace(/\r/g, '\n')`: the
line-ending normalization used by the Backlog fetch
(`src/unnamed/part_006`, line 151) and the bundled Redmine fetch
(`plugins/redmine.mjs`, line 405). -/
def normEol (s : Str) : Str :=
  (crlfPass s).map (fun c => if c = '\r' then '\n' else c)

/-- redmineFetchBodyMjs embeds the body expression of the bundled Redmine
`formatAsYamlFrontmatter` (`plugins/redmine.mjs`, line 405):
`issue.description ? normalized : ''`. -/
def redmineFetchBodyMjs (d : JOpt Str) : Str :=
  if jTruthyS d then normEol (jsOrEmptyStr d) else []

/-- validConfigRM embeds the configuration guard shared by `fetchTicket`
and `updateTicket`: a URL plus either an API key or a username/password
pair. -/
def validConfigRM (cfg : RedmineConfig) : Bool :=
  truthyS cfg.url && (truthyS cfg.api_key || (truthyS cfg.username && truthyS cfg.password))

/-- fetchTicket embeds `fetchTicket` from `src/unnamed/part_003`:
configuration validation, then a `get` through `apiRequest` with the
default retry policy, then `formatAsYamlFrontmatter`.  `net i` is the
response to the i-th GET attempt (with `response.issue` already
projected); the returned list contains one entry per issued request. -/
def fetchTicket (cfg : RedmineConfig) (net : Nat → ApiResp RedmineIssue) :
    Except PmError LocalTicket × List HttpReq :=
  if !truthyS cfg.url then
    (.error (mkValidationErr (cs "Redmine URLが設定されていません (integration.pm_tool.redmine.url)")), [])
  else if !(truthyS cfg.api_key || (truthyS cfg.username && truthyS cfg.password)) then
    (.error (mkValidationErr (cs "Redmine認証情報が設定されていません。api_key または username/password のいずれかを設定してください")), [])
  else
    let headers := (cs "Content-Type", cs "application/json") :: redmineAuthHeaders cfg
    let r := apiRequest net 3 isTransientError
    (r.1.map redmineFormatAsYamlFm, List.replicate r.2 { method := cs "GET", headers := headers })

/-- setextDescrMatch embeds the setext branch of the description
extraction, the regex `^[^\n]+\n=+\n+(.+)$` with `/s` followed by
`.trim()` (`src/unnamed/part_004`, lines 121-124; `plugins/redmine.mjs`,
lines 876-879): a nonempty first line, a second line consisting solely of
one or more `=`, then at least one newline and at least one further
character; the capture is everything after the underline's newline, which
`.trim()` reduces the same way whether or not the greedy `\n+`
backtracks. -/
def setextDescrMatch (doc : Str) : Option Str :=
  let l1 := doc.takeWhile (· ≠ '\n')
  if l1 = [] then none
  else
    match doc.drop l1.length with
    | '\n' :: r1 =>
      (let u := r1.takeWhile (· = '=')
       if u = [] then none
       else
         match r1.drop u.length with
         | '\n' :: r2 => if r2 = [] then none else some (jsTrim r2)
         | _ => none)
    | _ => none

/-- atxDescrTry tries the tail of the atx description regex
`[^\n]+\n+(.+)$` at one fixed end of the `\s+` prefix: a nonempty run of
non-newline characters, a newline, and at least one further character;
the `.trim()`-ed capture equals `jsTrim` of everything after that first
newline regardless of how the greedy `\n+` backtracks. -/
def atxDescrTry (s : Str) : Option Str :=
  let t := s.takeWhile (· ≠ '\n')
  if t = [] then none
  else
    match s.drop t.length with
    | '\n' :: r2 => if r2 = [] then none else some (jsTrim r2)
    | _ => none

/-- atxDescrBack performs the backtracking of the greedy `\s+` in
`^#\s+[^\n]+\n+(.+)$`: try the split after `i+1` whitespace characters,
from the maximal whitespace run downwards ( shortening the `[^\n]+` part
can never help because it would put a non-newline character where `\n+`
must match). -/
def atxDescrBack (d : Str) : Nat → Option Str
  | 0 => none
  | i + 1 =>
    match atxDescrTry (d.drop (i + 1)) with
    | some r => some r
    | none => atxDescrBack d i

/-- atxDescrMatch embeds the atx branch of the description extraction,
the regex `^#\s+[^\n]+\n+(.+)$` with `/s` followed by `.trim()`
(`src/unnamed/part_004`, lines 126-129; `plugins/redmine.mjs`, lines
882-885). -/
def atxDescrMatch (doc : Str) : Option Str :=
  match doc with
  | '#' :: d => atxDescrBack d (d.takeWhile jsIsSpace).length
  | _ => none

/-- descriptionFromBody embeds the inline h1-stripping of
`buildIssueUpdateData` in `src/unnamed/part_004` (lines 117-130):
`description` starts as the body and is replaced by the setext or atx
match when one applies. -/
def descriptionFromBody (body : Str) : Str :=
  match setextDescrMatch body with
  | some d => d
  | none =>
    match atxDescrMatch body with
    | some d => d
    | none => body

/-- extractDescriptionFromMarkdown embeds `extractDescriptionFromMarkdown`
from `plugins/redmine.mjs` (lines 870-889): empty body yields the empty
string, otherwise the setext or atx match, otherwise the trimmed body. -/
def extractDescriptionFromMarkdown (body : Str) : Str :=
  if body = [] then []
  else
    match setextDescrMatch body with
    | some d => d
    | none =>
      match atxDescrMatch body with
      | some d => d
      | none => jsTrim body

/-- setextSubjMatch embeds the setext branch of the subject extraction,
the regex `^([^\n]+)\n=+` followed by `.trim()` (`plugins/redmine.mjs`,
lines 848-851): a nonempty first line whose following line starts with
`=`; the capture is the whole first line. -/
def setextSubjMatch (doc : Str) : Option Str :=
  let l1 := doc.takeWhile (· ≠ '\n')
  if l1 = [] then none
  else
    match doc.drop l1.length with
    | '\n' :: '=' :: _ => some (jsTrim l1)
    | _ => none

/-- atxSubjBack performs the backtracking of the greedy `\s+` in
`#\s+(.+)$`: try the capture starting after `i+1` whitespace characters,
from the maximal whitespace run downwards; a successful capture is the
rest of the line at that point (the `$` of the `/m` regex then always
holds). -/
def atxSubjBack (d : Str) : Nat → Option Str
  | 0 => none
  | i + 1 =>
    (let t := (d.drop (i + 1)).takeWhile (· ≠ '\n')
     if t = [] then atxSubjBack d i else some (jsTrim t))

/-- atxSubjTry tries the regex `#\s+(.+)$` at one position (which the
`^` of the `/m` regex constrains to a line start). -/
def atxSubjTry (s : Str) : Option Str :=
  match s with
  | '#' :: d => atxSubjBack d (d.takeWhile jsIsSpace).length
  | _ => none

/-- skipLine drops the current line and its terminating newline,
yielding the next line start (or the empty string). -/
def skipLine (s : Str) : Str := (s.dropWhile (· ≠ '\n')).drop 1

theorem length_dropWhile_le (p : Char → Bool) (l : Str) :
    (l.dropWhile p).length ≤ l.length := by
  induction l with
  | nil => simp
  | cons c rest ih =>
    by_cases h : p c
    · rw [List.dropWhile_cons_of_pos h]
      exact Nat.le_succ_of_le ih
    · rw [List.dropWhile_cons_of_neg h]

/-- atxSubjScan scans the line starts of the document in order, trying
the `/m`-anchored regex `^#\s+(.+)$` at each, as `String.prototype.match`
does for a multiline regex. -/
def atxSubjScan (s : Str) : Option Str :=
  match s with
  | [] => none
  | c :: rest =>
    match atxSubjTry (c :: rest) with
    | some r => some r
    | none => atxSubjScan (skipLine (c :: rest))
termination_by s.length
decreasing_by
  simp only [skipLine]
  have h1 := length_dropWhile_le (fun x => decide (x ≠ '\n')) (c :: rest)
  have h2 : ∀ l : Str, (l.drop 1).length ≤ l.length - 1 := by
    intro l; simp [List.length_drop]
  calc ((( c :: rest).dropWhile (· ≠ '\n')).drop 1).length
      ≤ ((c :: rest).dropWhile (· ≠ '\n')).length - 1 := h2 _
    _ ≤ (c :: rest).length - 1 := by omega
    _ < (c :: rest).length := by simp

/-- extractSubjectFromMarkdown embeds `extractSubjectFromMarkdown` from
`plugins/redmine.mjs` (lines 842-861): empty body yields the empty
string, otherwise the setext h1, otherwise the first atx h1 anywhere in
the document, otherwise the empty string. -/
def extractSubjectFromMarkdown (body : Str) : Str :=
  if body = [] then []
  else
    match setextSubjMatch body with
    | some t => t
    | none =>
      match atxSubjScan body with
      | some t => t
      | none => []

/-- splitTicketHeading is the local-to-remote split of §4.6: the first
heading becomes the title candidate and the heading-stripped remainder
becomes the description candidate, both taken from the extraction
functions of `plugins/redmine.mjs`. -/
def splitTicketHeading (doc : Str) : Str × Str :=
  (extractSubjectFromMarkdown doc, extractDescriptionFromMarkdown doc)

/-- renderTitleLine embeds `title || 'Untitled'` from `formatMarkdown`
(`_tools/lib/pm-tool/cli.js`, line 169). -/
def renderTitleLine (title : Str) : Str :=
  if title = [] then cs "Untitled" else title

/-- renderHeading embeds the Markdown part of `formatMarkdown`
(`_tools/lib/pm-tool/cli.js`, lines 162-180): the title line, a setext
underline of `=` of length `max(title.length, 25)`, a blank line, the
body, and a final newline.  The YAML front-matter block that
`formatMarkdown` places before this part is delimiter-fenced and removed
before any split runs, so the heading/body section is the unit the
split/render round-trip operates on. -/
def renderHeading (title body : Str) : Str :=
  renderTitleLine title ++
    '\n' :: (List.replicate (max (renderTitleLine title).length 25) '=' ++
      '\n' :: '\n' :: (body ++ ['\n']))

/-- PVal is a value of an outgoing update payload: an integer, the
`NaN` produced by `parseInt` on a non-numeric string, a string, the
result of `parseFloat` on a given string (its numeric value is never
inspected by the engine, so the embedding keeps the source string), or an
explicit `null`. -/
inductive PVal : Type
  | pInt : Int → PVal
  | pNan : PVal
  | pStr : Str → PVal
  | pFloatParsed : Str → PVal
  | pNull : PVal
deriving DecidableEq, Repr

/-- digitsToNat reads a nonempty decimal digit string. -/
def digitsToNat (ds : Str) : Nat :=
  ds.foldl (fun acc c => acc * 10 + (c.toNat - 48)) 0

/-- jsParseIntPV embeds `parseInt(s, 10)`: skip leading whitespace, read
an optional sign and a maximal decimal-digit prefix; no digits yields
`NaN`. -/
def jsParseIntPV (s : Str) : PVal :=
  let t := s.dropWhile jsIsSpace
  match t with
  | '-' :: r =>
    (let ds := r.takeWhile Char.isDigit
     if ds = [] then .pNan else .pInt (-(digitsToNat ds : Int)))
  | '+' :: r =>
    (let ds := r.takeWhile Char.isDigit
     if ds = [] then .pNan else .pInt (digitsToNat ds : Int))
  | r =>
    (let ds := r.takeWhile Char.isDigit
     if ds = [] then .pNan else .pInt (digitsToNat ds : Int))

/-- RFrontmatter embeds the fields of a parsed Redmine ticket's YAML
front matter that `buildIssueUpdateData` reads.  `status` and
`assigned_to` are the `id` reached by `frontmatter.field?.id` (`none`
when the object or its id is absent).  `estimated_hours` uses `JOpt`
because its guard distinguishes `null` from `undefined`. -/
structure RFrontmatter where
  status : Option Int
  assigned_to : Option Int
  done_ratio : Option Int
  estimated_hours : JOpt Int
  start_date : Option Str
  due_date : Option Str

/-- emptyRFm is an empty front-matter object. -/
def emptyRFm : RFrontmatter :=
  { status := none, assigned_to := none, done_ratio := none,
    estimated_hours := .absent, start_date := none, due_date := none }

/-- truthyInt models JS truthiness of a possibly-undefined number
(`undefined` and `0` are falsy), as `frontmatter.status?.id` is tested. -/
def truthyInt : Option Int → Bool
  | none => false
  | some i => i ≠ 0

/-- RUpdateData embeds the `updateData` object passed to the Redmine
`updateTicket`: the command-line option values (all strings as minimist
delivers them; `none` when the flag was not given), the dry-run flag
(`updateData.dryRun || updateData['dry-run']`), the parsed front matter,
and the body text. -/
structure RUpdateData where
  comment : Option Str
  description : Option Str
  status : Option Str
  assigned_to : Option Str
  done_ratio : Option Str
  estimated_hours : Option Str
  start_date : Option Str
  due_date : Option Str
  priority : Option Str
  category : Option Str
  dryRun : Bool
  frontmatter : RFrontmatter
  body : Option Str

/-- buildIssueUpdateData embeds `buildIssueUpdateData` from
`src/unnamed/part_004` (lines 102-190): each field is emitted from the
command-line option when that option is truthy (for `done_ratio` and
`estimated_hours`: when it is defined), otherwise from the front matter
when that is truthy (or defined, or non-null-and-defined, matching each
field's guard), otherwise omitted.  The payload is an association list in
source field order. -/
def buildIssueUpdateData (ud : RUpdateData) : List (Str × PVal) :=
  let fm := ud.frontmatter
  let body := ud.body.getD []
  (if truthyS ud.comment then [(cs "notes", .pStr (ud.comment.getD []))] else []) ++
  (if truthyS ud.description then [(cs "description", .pStr (ud.description.getD []))]
   else if body ≠ [] then
     (let d := descriptionFromBody body
      if d ≠ [] ∧ d ≠ body then [(cs "description", .pStr d)] else [])
   else []) ++
  (if truthyS ud.status then [(cs "status_id", jsParseIntPV (ud.status.getD []))]
   else if truthyInt fm.status then [(cs "status_id", .pInt (fm.status.getD 0))]
   else []) ++
  (if truthyS ud.assigned_to then [(cs "assigned_to_id", jsParseIntPV (ud.assigned_to.getD []))]
   else if truthyInt fm.assigned_to then [(cs "assigned_to_id", .pInt (fm.assigned_to.getD 0))]
   else []) ++
  (match ud.done_ratio with
   | some s => [(cs "done_ratio", jsParseIntPV s)]
   | none =>
     match fm.done_ratio with
     | some i => [(cs "done_ratio", .pInt i)]
     | none => []) ++
  (match ud.estimated_hours with
   | some s => [(cs "estimated_hours", .pFloatParsed s)]
   | none =>
     match fm.estimated_hours with
     | .val i => [(cs "estimated_hours", .pInt i)]
     | _ => []) ++
  (if truthyS ud.start_date then [(cs "start_date", .pStr (ud.start_date.getD []))]
   else if truthyS fm.start_date then [(cs "start_date", .pStr (fm.start_date.getD []))]
   else []) ++
  (if truthyS ud.due_date then [(cs "due_date", .pStr (ud.due_date.getD []))]
   else if truthyS fm.due_date then [(cs "due_date", .pStr (fm.due_date.getD []))]
   else []) ++
  (if truthyS ud.priority then [(cs "priority_id", jsParseIntPV (ud.priority.getD []))] else []) ++
  (if truthyS ud.category then [(cs "category_id", jsParseIntPV (ud.category.getD []))] else [])

/-- RUpdateResult embeds the result object of the Redmine `updateTicket`:
`success`, `message`, the payload echoed as `updated`, and the `dryRun`
marker (absent, i.e. `false`, on a real update). -/
structure RUpdateResult where
  success : Bool
  message : Str
  updated : List (Str × PVal)
  dryRun : Bool
deriving DecidableEq, Repr

/-- updateTicket embeds `updateTicket` from `src/unnamed/part_004`:
configuration validation, payload construction, the empty-payload
`ValidationError`, the dry-run short circuit, the `put` through
`apiRequest` with the default retry policy, and the 404 re-signalling
with a message naming the ticket id.  `putNet i` is the response to the
i-th PUT attempt; the returned list contains one entry per issued
request. -/
def updateTicket (cfg : RedmineConfig) (ticketId : Str) (ud : RUpdateData)
    (putNet : Nat → ApiResp Unit) : Except PmError RUpdateResult × List HttpReq :=
  if !truthyS cfg.url then
    (.error (mkValidationErr (cs "Redmine URLが設定されていません (integration.pm_tool.redmine.url)")), [])
  else if !(truthyS cfg.api_key || (truthyS cfg.username && truthyS cfg.password)) then
    (.error (mkValidationErr (cs "Redmine認証情報が設定されていません。api_key または username/password のいずれかを設定してください")), [])
  else
    let issueData := buildIssueUpdateData ud
    if issueData = [] then
      (.error (mkValidationErr (cs "更新する内容が指定されていません")), [])
    else if ud.dryRun then
      (.ok { success := true,
             message := cs "[DRY RUN] チケット #" ++ ticketId ++ cs " の更新をシミュレートしました",
             updated := issueData, dryRun := true }, [])
    else
      let headers := (cs "Content-Type", cs "application/json") :: redmineAuthHeaders cfg
      let r := apiRequest putNet 3 isTransientError
      let reqs := List.replicate r.2 { method := cs "PUT", headers := headers : HttpReq }
      match r.1 with
      | .ok _ =>
        (.ok { success := true,
               message := cs "チケット #" ++ ticketId ++ cs " を更新しました",
               updated := issueData, dryRun := false }, reqs)
      | .error e =>
        if e.name = cs "ApiError" && e.statusCode = some 404 then
          (.error (mkApiErr (cs "チケット #" ++ ticketId ++ cs " が見つかりません (404 Not Found)") 404), reqs)
        else
          (.error e, reqs)

/-- BacklogConfig embeds the `integration.pm_tool.backlog` settings
object. -/
structure BacklogConfig where
  url : Option Str
  api_key : Option Str

/-- BacklogIssue embeds a Backlog `GET /api/v2/issues/key` response, with
exactly the fields read by the Backlog plugin.  Sub-objects reached with
`?.` use `JOpt` (the API returns `null` for an unassigned issue, which
`?.` treats like `undefined`); optional scalar fields use `JOpt` because
their guards distinguish `null`, `undefined` and falsy values. -/
structure BacklogIssue where
  id : Int
  issueKey : Str
  projectId : Int
  summary : JOpt Str
  issueType : JOpt NameObj
  status : JOpt NameObj
  priority : JOpt NameObj
  assignee : JOpt NameObj
  created : JOpt Str
  updated : JOpt Str
  startDate : JOpt Str
  dueDate : JOpt Str
  estimatedHours : JOpt Int
  actualHours : JOpt Int
  description : JOpt Str
deriving DecidableEq, Repr

/-- nameOrEmpty embeds `issue.field?.name || ''`: the object's name when
the object exists and the name is truthy, the empty string otherwise. -/
def nameOrEmpty : JOpt NameObj → Str
  | .val o => if o.name = [] then [] else o.name
  | _ => []

/-- backlogFormatMeta embeds the `meta` object built by
`formatAsYamlFrontmatter` in `src/unnamed/part_006` (lines 122-148): ten
unconditional entries (with `|| ''` fallbacks on the name-valued ones)
followed by the optional date entries (added only when truthy) and the
optional hour entries (added only when neither `null` nor `undefined`). -/
def backlogFormatMeta (issue : BacklogIssue) : List (Str × MVal) :=
  [(cs "backlog_id", .mInt issue.id),
   (cs "backlog_key", .mStr issue.issueKey),
   (cs "project_id", .mInt issue.projectId),
   (cs "title", mOfJStr issue.summary),
   (cs "type", .mStr (nameOrEmpty issue.issueType)),
   (cs "status", .mStr (nameOrEmpty issue.status)),
   (cs "priority", .mStr (nameOrEmpty issue.priority)),
   (cs "assignee", .mStr (nameOrEmpty issue.assignee)),
   (cs "created_at", mOfJStr issue.created),
   (cs "updated_at", mOfJStr issue.updated)] ++
  (if jTruthyS issue.startDate then [(cs "start_date", .mStr (jsOrEmptyStr issue.startDate))] else []) ++
  (if jTruthyS issue.dueDate then [(cs "due_date", .mStr (jsOrEmptyStr issue.dueDate))] else []) ++
  (match issue.estimatedHours with
   | .val i => [(cs "estimated_hours", .mInt i)]
   | _ => []) ++
  (match issue.actualHours with
   | .val i => [(cs "actual_hours", .mInt i)]
   | _ => [])

/-- backlogFetchBody embeds the body expression of
`formatAsYamlFrontmatter` in `src/unnamed/part_006` (line 151):
`issue.description ? description-with-normalized-line-endings : ''`. -/
def backlogFetchBody (d : JOpt Str) : Str :=
  if jTruthyS d then normEol (jsOrEmptyStr d) else []

/-- backlogFormatAsYamlFm embeds `formatAsYamlFrontmatter` from
`src/unnamed/part_006` (lines 122-159). -/
def backlogFormatAsYamlFm (issue : BacklogIssue) : LocalTicket :=
  { meta := backlogFormatMeta issue,
    body := backlogFetchBody issue.description,
    title := if jTruthyS issue.summary then jsOrEmptyStr issue.summary else cs "Untitled" }

/-- handleApiResponse embeds `handleApiResponse` from
`src/unnamed/part_007` (lines 593-613): 401 to `AuthenticationError`,
404 to a fixed-message `ApiError`, any other non-2xx to an `ApiError`
whose message is the joined error messages from the response body when
present, otherwise the generic line interpolating the numeric status and
the status text.  A transport failure is not caught here (the bundled
Backlog update has no try/catch around `fetch`), so it surfaces as the
raw fetch `TypeError`.  The `ApiResp.http` constructor carries the
already-joined error-message string (empty when the body had none). -/
def handleApiResponse : ApiResp α → Except PmError α
  | .ok v => .ok v
  | .http status statusText errMsgs =>
    if status = 401 then
      .error (mkAuthErr (cs "認証に失敗しました。APIキーを確認してください。"))
    else if status = 404 then
      .error (mkApiErr (cs "指定された課題が見つかりません。") 404)
    else if errMsgs ≠ [] then
      .error (mkApiErr errMsgs status)
    else
      .error (mkApiErr
        (cs "Backlog API エラー: " ++ (Nat.repr status).toList ++ cs " " ++ statusText) status)
  | .netfail => .error typeErrorFetch

/-- backlogShouldRetryFetch embeds the `shouldRetry` lambda of the
Backlog GET retries (`src/unnamed/part_007`, lines 522-525): anything but
an `AuthenticationError` or a 404 `ApiError`. -/
def backlogShouldRetryFetch (e : PmError) : Bool :=
  !(e.name = cs "AuthenticationError") &&
  !(e.name = cs "ApiError" && e.statusCode = some 404)

/-- backlogShouldRetryUpdate embeds the `shouldRetry` lambda of the
Backlog PATCH retry (`src/unnamed/part_007`, lines 535-538): anything but
an `AuthenticationError` or a 404 or 400 `ApiError`. -/
def backlogShouldRetryUpdate (e : PmError) : Bool :=
  !(e.name = cs "AuthenticationError") &&
  !(e.name = cs "ApiError" && e.statusCode = some 404) &&
  !(e.name = cs "ApiError" && e.statusCode = some 400)

/-- BFrontmatter embeds the fields of a parsed Backlog ticket's YAML
front matter that `buildUpdatePayload` reads (`none` = absent). -/
structure BFrontmatter where
  title : Option Str
  status : Option Str
  due_date : Option Str
  start_date : Option Str
  estimated_hours : Option Int
  actual_hours : Option Int

/-- emptyBFm is an empty Backlog front-matter object. -/
def emptyBFm : BFrontmatter :=
  { title := none, status := none, due_date := none, start_date := none,
    estimated_hours := none, actual_hours := none }

/-- BUpdateData embeds the `updateData` object passed to the Backlog
`updateIssue`: the parsed front matter, the body, and the dry-run flag
that the CLI passes (`--dry-run`); `updateIssue` never reads the latter. -/
structure BUpdateData where
  frontmatter : BFrontmatter
  body : Option Str
  dryRun : Bool

/-- jneqSummary embeds `frontmatter.title !== originalIssue.summary`: a
string front-matter title differs from a missing summary and from any
different string. -/
def jneqSummary (t : Str) : JOpt Str → Bool
  | .val s => t ≠ s
  | _ => true

/-- buildUpdatePayload embeds `buildUpdatePayload` from
`src/unnamed/part_007` (lines 621-634): `summary` when the front-matter
title is truthy and differs from the remote summary; a status mismatch
only warns and adds nothing; date fields whenever defined (an empty value
becomes an explicit `null`); hour fields whenever defined. -/
def buildUpdatePayload (ud : BUpdateData) (originalIssue : BacklogIssue) :
    List (Str × PVal) :=
  let fm := ud.frontmatter
  (if truthyS fm.title && jneqSummary (fm.title.getD []) originalIssue.summary then
     [(cs "summary", .pStr (fm.title.getD []))]
   else []) ++
  (match fm.due_date with
   | some s => [(cs "dueDate", if s = [] then .pNull else .pStr s)]
   | none => []) ++
  (match fm.start_date with
   | some s => [(cs "startDate", if s = [] then .pNull else .pStr s)]
   | none => []) ++
  (match fm.estimated_hours with
   | some i => [(cs "estimatedHours", .pInt i)]
   | none => []) ++
  (match fm.actual_hours with
   | some i => [(cs "actualHours", .pInt i)]
   | none => [])

/-- BUpdateResult embeds the result object of the Backlog `updateIssue`:
`success`, the optional `message` of the nothing-to-update path, and the
updated issue on the write path. -/
structure BUpdateResult where
  success : Bool
  message : Option Str
  issue : Option BacklogIssue
deriving DecidableEq, Repr

/-- backlogReqHeaders is the header list of every Backlog request (the
API key travels in the query string, not in a header). -/
def backlogReqHeaders : List (Str × Str) :=
  [(cs "Content-Type", cs "application/json")]

/-- updateIssue embeds `updateIssue` from `src/unnamed/part_007` (lines
517-548): configuration validation, a GET of the current issue through
`retry` (maxRetries 3), payload construction, the empty-payload success
return, and the PATCH through `retry` (maxRetries 2).  There is no
dry-run branch in this function.  `issueKey` reaches only the request
URL and the log lines, never an error message.  `getNet i` / `patchNet i`
are the responses to the i-th GET / PATCH attempts; the returned list
contains one entry per issued request, in order. -/
def updateIssue (cfg : BacklogConfig) (_issueKey : Str) (ud : BUpdateData)
    (getNet : Nat → ApiResp BacklogIssue) (patchNet : Nat → ApiResp BacklogIssue) :
    Except PmError BUpdateResult × List HttpReq :=
  if !truthyS cfg.url then
    (.error (mkValidationErr (cs "Backlog URLが設定されていません (integration.pm_tool.backlog.url)")), [])
  else if !truthyS cfg.api_key then
    (.error (mkValidationErr (cs "Backlog APIキーが設定されていません (integration.pm_tool.backlog.api_key)")), [])
  else
    let g := retryModel (fun i => handleApiResponse (getNet i)) 3 backlogShouldRetryFetch
    let getReqs := List.replicate g.2 { method := cs "GET", headers := backlogReqHeaders : HttpReq }
    match g.1 with
    | .error e => (.error e, getReqs)
    | .ok originalIssue =>
      let updatePayload := buildUpdatePayload ud originalIssue
      if updatePayload = [] then
        (.ok { success := true, message := some (cs "更新する項目がありません"), issue := none },
         getReqs)
      else
        let p := retryModel (fun i => handleApiResponse (patchNet i)) 2 backlogShouldRetryUpdate
        let patchReqs := List.replicate p.2 { method := cs "PATCH", headers := backlogReqHeaders : HttpReq }
        match p.1 with
        | .error e => (.error e, getReqs ++ patchReqs)
        | .ok updatedIssue =>
          (.ok { success := true, message := none, issue := some updatedIssue },
           getReqs ++ patchReqs)

/-- URLRec is the result of parsing an absolute http(s) URL, with the
components `parseTicketIdFromUrl` compares: the `protocol` (scheme plus
colon), the lowercased `hostname`, the normalized `port` string (empty
for the scheme default), and the `pathname`. -/
structure URLRec where
  protocol : Str
  hostname : Str
  port : Str
  pathname : Str
deriving DecidableEq, Repr

/-- natDigits renders a natural number in decimal, as the WHATWG URL
parser re-serializes an explicit port. -/
def natDigits (n : Nat) : Str := (Nat.repr n).toList

/-- parseURL models `new URL(s)` of the WHATWG URL standard for the
absolute http/https URLs this tool handles (no userinfo, no IPv6
brackets, no percent re-encoding): the scheme and host are lowercased by
taking them verbatim from the already lowercase schemes and lowercasing
the host; an explicit port equal to the scheme default is normalized to
the empty string; the pathname runs to the first `?` or `#` and defaults
to `/`.  Returns `none` when `new URL` would throw (no http(s) scheme,
empty host, non-numeric port). -/
def parseURL (s : Str) : Option URLRec :=
  let parse2 := fun (proto : Str) (rest : Str) (defPort : Nat) =>
    let auth := rest.takeWhile (fun c => !(c = '/' || c = '?' || c = '#'))
    let afterAuth := rest.drop auth.length
    let host := auth.takeWhile (· ≠ ':')
    if host = [] then none
    else
      let portDigits := auth.drop (host.length + 1)
      let portOk := host.length = auth.length ||
        portDigits.all Char.isDigit
      if !portOk then none
      else
        let port :=
          if host.length = auth.length || portDigits = [] then ([] : Str)
          else if digitsToNat portDigits = defPort then []
          else natDigits (digitsToNat portDigits)
        let pathname :=
          match afterAuth with
          | '/' :: _ => afterAuth.takeWhile (fun c => !(c = '?' || c = '#'))
          | _ => cs "/"
        some { protocol := proto, hostname := host.map Char.toLower,
               port := port, pathname := pathname }
  if (cs "http://").isPrefixOf s then
    parse2 (cs "http:") (s.drop 7) 80
  else if (cs "https://").isPrefixOf s then
    parse2 (cs "https:") (s.drop 8) 443
  else none

/-- findIssuesNum embeds the regex `/\/issues\/(\d+)/` applied to a URL
pathname (`_tools/lib/pm-tool/cli.js`, line 134): the maximal digit run
after the leftmost occurrence of `/issues/` that is followed by at least
one digit. -/
def findIssuesNum : Str → Option Str
  | [] => none
  | c :: rest =>
    if (cs "/issues/").isPrefixOf (c :: rest) then
      (let ds := ((c :: rest).drop 8).takeWhile Char.isDigit
       if ds = [] then findIssuesNum rest else some ds)
    else findIssuesNum rest

/-- parseTicketIdFromUrl embeds `parseTicketIdFromUrl` from
`_tools/lib/pm-tool/cli.js` (lines 109-154): non-URL inputs pass through
unchanged; otherwise the input and the configured URL are parsed (a parse
failure of either is caught and re-thrown as the generic `INVALID_URL`
`PmToolError` naming the input); a protocol, hostname or port mismatch
raises the `URL_MISMATCH` `PmToolError` naming both URLs; otherwise the
ticket number is extracted from the pathname, a failed extraction raising
the `INVALID_URL_FORMAT` `PmToolError`. -/
def parseTicketIdFromUrl (input : Str) (configUrl : Str) : Except PmError Str :=
  if !((cs "http://").isPrefixOf input || (cs "https://").isPrefixOf input) then
    .ok input
  else
    match parseURL input with
    | none => .error (mkPmToolError (cs "不正なURL形式です: " ++ input) (cs "INVALID_URL"))
    | some inputUrl =>
      match parseURL configUrl with
      | none => .error (mkPmToolError (cs "不正なURL形式です: " ++ input) (cs "INVALID_URL"))
      | some baseUrl =>
        if inputUrl.protocol ≠ baseUrl.protocol ∨ inputUrl.hostname ≠ baseUrl.hostname ∨
            inputUrl.port ≠ baseUrl.port then
          .error (mkPmToolError
            (cs "URLが設定と一致しません\n設定: " ++ configUrl ++ cs "\n入力: " ++ input)
            (cs "URL_MISMATCH"))
        else
          match findIssuesNum inputUrl.pathname with
          | none => .error (mkPmToolError
              (cs "URLからチケット番号を抽出できませんでした: " ++ input)
              (cs "INVALID_URL_FORMAT"))
          | some d => .ok d

/-- resolveRequests is the request trace of identifier resolution:
`parseTicketIdFromUrl` is a pure function in the source (no `fetch`, no
`await`), so the trace is empty for every input. -/
def resolveRequests (_input _configUrl : Str) : List HttpReq := []

theorem retryModel_first_ok (fn : Nat → Except ε α) (v : α) (maxRetries : Nat)
    (shouldRetry : ε → Bool) (h : fn 0 = .ok v) :
    retryModel fn maxRetries shouldRetry = (.ok v, 1) := by
  cases maxRetries with
  | zero => simp [retryModel, retryAux, h]
  | succ n => simp [retryModel, retryAux, h]

theorem apiRequest_first_error (net : Nat → ApiResp α) (e : PmError)
    (h : classifyResp (net 0) = .error e) (ht : isTransientError e = false) :
    apiRequest net 3 isTransientError = (.error (normalizeError e), 1) := by
  have hr := retryModel_no_retry (fun i => classifyResp (net i)) e 3 isTransientError h ht
  simp [apiRequest, hr]

theorem classifyResp_404 (st bt : Str) :
    classifyResp (ApiResp.http 404 st bt : ApiResp α) =
      .error (mkApiErr (cs "APIエラー: " ++ st) 404) := by
  simp [classifyResp]

theorem isTransientError_apiErr_404 (msg : Str) :
    isTransientError (mkApiErr msg 404) = false := by
  simp [isTransientError, isRateLim, mkApiErr]
  decide

theorem mem_crlfPass_ne_cr (s : Str) : '\r' ∉ normEol s := by
  intro hmem
  simp only [normEol, List.mem_map] at hmem
  obtain ⟨a, _, ha⟩ := hmem
  by_cases h : a = '\r'
  · rw [if_pos h] at ha
    exact absurd ha (by decide)
  · rw [if_neg h] at ha
    exact h ha

/-- rIssueWithDesc is a Redmine issue fixture whose description is the
given value and whose remaining fields are fixed. -/
def rIssueWithDesc (d : JOpt Str) : RedmineIssue :=
  { id := 9, project := some { id := 1, name := cs "P" }, tracker := none, status := none,
    priority := none, author := none, assigned_to := none, category := none,
    estimated_hours := .jnull, start_date := .jnull, due_date := .absent,
    done_ratio := .val 30, created_on := .val (cs "c"), updated_on := .absent,
    description := d, subject := .val (cs "T") }

/-- C2: the claim says a failing operation with an always-true
`shouldRetry` is invoked exactly `maxAttempts` times with a default of 3,
but the executor's option is `maxRetries` (default 3) and the loop runs
attempts `0..maxRetries`, i.e. `maxRetries + 1` invocations — 4 with the
defaults.  This counterexample evaluates the executor on an operation
failing every attempt under the default policy. -/
theorem C2_counterexample :
    (retryModel (fun i => (Except.error i : Except Nat Unit)) defaultMaxRetries
      (fun _ => true)).2 = 4 ∧ (4 : Nat) ≠ 3 := by
  constructor
  · rfl
  · decide

/-- C2 (amended): for every operation failing on every attempt and an
always-true `shouldRetry`, the retry executor invokes the operation
exactly `maxRetries + 1` times (4 under the default `maxRetries = 3`) and
propagates the last attempt's error; when `shouldRetry` rejects the first
failure, the operation is invoked exactly once and the first error is
propagated. -/
theorem C2_retry_counts :
    (∀ (ε α : Type) (fn : Nat → Except ε α) (e : Nat → ε) (maxRetries : Nat),
      (∀ i, fn i = .error (e i)) →
      retryModel fn maxRetries (fun _ => true) = (.error (e maxRetries), maxRetries + 1)) ∧
    (∀ (ε α : Type) (fn : Nat → Except ε α) (e0 : ε) (maxRetries : Nat) (sr : ε → Bool),
      fn 0 = .error e0 → sr e0 = false →
      retryModel fn maxRetries sr = (.error e0, 1)) := by
  constructor
  · intro ε α fn e maxRetries hf
    exact retryModel_all_fail fn e maxRetries hf
  · intro ε α fn e0 maxRetries sr hf hs
    exact retryModel_no_retry fn e0 maxRetries sr hf hs

/-- C2 witness: the amended theorem applied to the concrete operation
failing with its attempt index, under the default policy and under a
never-retry policy. -/
theorem C2_retry_counts_witness :
    retryModel (fun i => (Except.error i : Except Nat Nat)) defaultMaxRetries
        (fun _ => true) = (.error 3, 4) ∧
    retryModel (fun i => (Except.error i : Except Nat Nat)) defaultMaxRetries
        (fun _ => false) = (.error 0, 1) :=
  ⟨C2_retry_counts.1 Nat Nat _ (fun i => i) defaultMaxRetries (fun _ => rfl),
   C2_retry_counts.2 Nat Nat _ 0 defaultMaxRetries (fun _ => false) rfl rfl⟩

/-- C5: the claim says every backend's fetch normalizes line endings
before returning body text, but the Redmine fetch of
`src/unnamed/part_003` returns `issue.description || ''` unchanged: a
description containing CRLF comes back with the CR still present. -/
theorem C5_counterexample :
    '\r' ∈ (redmineFormatAsYamlFm (rIssueWithDesc (.val (cs "a\r\nb")))).body := by
  decide

/-- C5 (amended): the Backlog fetch (`src/unnamed/part_006`) and the
bundled Redmine fetch (`plugins/redmine.mjs`) normalize CRLF and lone CR
to LF, so their returned bodies never contain a CR; the Redmine fetch of
`src/unnamed/part_003` returns the description unchanged. -/
theorem C5_line_endings :
    (∀ d : JOpt Str, '\r' ∉ backlogFetchBody d) ∧
    (∀ d : JOpt Str, '\r' ∉ redmineFetchBodyMjs d) ∧
    (∀ s : Str, (redmineFormatAsYamlFm (rIssueWithDesc (.val s))).body = s) := by
  refine ⟨?_, ?_, ?_⟩
  · intro d hmem
    unfold backlogFetchBody at hmem
    by_cases h : jTruthyS d
    · rw [if_pos h] at hmem
      exact mem_crlfPass_ne_cr _ hmem
    · rw [if_neg h] at hmem
      simp at hmem
  · intro d hmem
    unfold redmineFetchBodyMjs at hmem
    by_cases h : jTruthyS d
    · rw [if_pos h] at hmem
      exact mem_crlfPass_ne_cr _ hmem
    · rw [if_neg h] at hmem
      simp at hmem
  · intro s
    rfl

theorem fetchTicket_req_shape (cfg : RedmineConfig) (net : Nat → ApiResp RedmineIssue) :
    ∀ q ∈ (fetchTicket cfg net).2,
      q = { method := cs "GET",
            headers := (cs "Content-Type", cs "application/json") :: redmineAuthHeaders cfg } := by
  intro q hq
  unfold fetchTicket at hq
  repeat' first
    | split at hq
    | simp only [apply_ite Prod.snd] at hq
  all_goals first
    | exact List.eq_of_mem_replicate hq
    | (simp at hq; exact hq.2)
    | simp at hq

theorem updateTicket_req_shape (cfg : RedmineConfig) (ticketId : Str) (ud : RUpdateData)
    (putNet : Nat → ApiResp Unit) :
    ∀ q ∈ (updateTicket cfg ticketId ud putNet).2,
      q = { method := cs "PUT",
            headers := (cs "Content-Type", cs "application/json") :: redmineAuthHeaders cfg } := by
  intro q hq
  unfold updateTicket at hq
  repeat' first
    | split at hq
    | simp only [apply_ite Prod.snd] at hq
  all_goals first
    | exact List.eq_of_mem_replicate hq
    | (simp at hq; exact hq.2)
    | simp at hq

/-- cfgBothC10 is a Redmine configuration carrying both an API key and a
username/password pair. -/
def cfgBothC10 : RedmineConfig :=
  { url := some (cs "https://r.example.com"), api_key := some (cs "KEY"),
    username := some (cs "u"), password := some (cs "p") }

/-- C10: when the Redmine configuration carries a (nonempty) API key,
both the fetch and the update authenticate every issued request solely
with the `X-Redmine-API-Key` header: no `Authorization` header is set,
even when a username/password pair is also configured. -/
theorem C10_api_key_precedence (cfg : RedmineConfig) (k u p : Str)
    (hk : cfg.api_key = some k) (hk2 : k ≠ [])
    (hu : cfg.username = some u) (hp : cfg.password = some p) :
    redmineAuthHeaders cfg = [(cs "X-Redmine-API-Key", k)] ∧
    (∀ (net : Nat → ApiResp RedmineIssue) (q : HttpReq), q ∈ (fetchTicket cfg net).2 →
      q.headers.lookup (cs "Authorization") = none ∧
      q.headers.lookup (cs "X-Redmine-API-Key") = some k) ∧
    (∀ (ticketId : Str) (ud : RUpdateData) (putNet : Nat → ApiResp Unit) (q : HttpReq),
      q ∈ (updateTicket cfg ticketId ud putNet).2 →
      q.headers.lookup (cs "Authorization") = none ∧
      q.headers.lookup (cs "X-Redmine-API-Key") = some k) := by
  have htr : truthyS cfg.api_key = true := by simp [truthyS, hk, hk2]
  have hhdr : redmineAuthHeaders cfg = [(cs "X-Redmine-API-Key", k)] := by
    rw [redmineAuthHeaders, if_pos htr, hk]
    rfl
  have hlook : ((cs "Content-Type", cs "application/json") ::
      redmineAuthHeaders cfg).lookup (cs "Authorization") = none ∧
      ((cs "Content-Type", cs "application/json") ::
      redmineAuthHeaders cfg).lookup (cs "X-Redmine-API-Key") = some k := by
    rw [hhdr]
    exact ⟨rfl, rfl⟩
  refine ⟨hhdr, ?_, ?_⟩
  · intro net q hq
    rw [fetchTicket_req_shape cfg net q hq]
    exact hlook
  · intro ticketId ud putNet q hq
    rw [updateTicket_req_shape cfg ticketId ud putNet q hq]
    exact hlook

/-- C10 witness: the theorem applied to a configuration carrying both an
API key and a username/password pair. -/
theorem C10_api_key_precedence_witness :
    redmineAuthHeaders cfgBothC10 = [(cs "X-Redmine-API-Key", cs "KEY")] :=
  (C10_api_key_precedence cfgBothC10 (cs "KEY") (cs "u") (cs "p") rfl (by decide) rfl rfl).1

/-- C1: the claim says a scheme/host/port mismatch raises a
`ValidationError`, but `parseTicketIdFromUrl` throws the base
`PmToolError` with code `URL_MISMATCH` (`cli.js`, lines 126-131), whose
`name` is `PmToolError`, not `ValidationError` (and whose `code` is not
`VALIDATION_ERROR`). -/
theorem C1_counterexample :
    parseTicketIdFromUrl (cs "https://other.example.com/issues/1234")
        (cs "https://t.example.com") =
      .error (mkPmToolError
        (cs "URLが設定と一致しません\n設定: https://t.example.com\n入力: https://other.example.com/issues/1234")
        (cs "URL_MISMATCH")) ∧
    (mkPmToolError
        (cs "URLが設定と一致しません\n設定: https://t.example.com\n入力: https://other.example.com/issues/1234")
        (cs "URL_MISMATCH")).name ≠ (mkValidationErr []).name ∧
    (mkPmToolError
        (cs "URLが設定と一致しません\n設定: https://t.example.com\n入力: https://other.example.com/issues/1234")
        (cs "URL_MISMATCH")).code ≠ (mkValidationErr []).code := by
  refine ⟨?_, by decide, by decide⟩
  rfl

/-- C1 (amended): for every URL input whose parsed scheme, hostname or
port differs from the configured base URL's, identifier resolution raises
a `PmToolError` with code `URL_MISMATCH` (the base error class, not
`ValidationError`) whose message names both URLs, and resolution issues
no network request (it is a pure function). -/
theorem C1_url_mismatch (input configUrl : Str) (iu bu : URLRec)
    (hpre : ((cs "http://").isPrefixOf input || (cs "https://").isPrefixOf input) = true)
    (hiu : parseURL input = some iu) (hbu : parseURL configUrl = some bu)
    (hne : iu.protocol ≠ bu.protocol ∨ iu.hostname ≠ bu.hostname ∨ iu.port ≠ bu.port) :
    parseTicketIdFromUrl input configUrl =
      .error (mkPmToolError
        (cs "URLが設定と一致しません\n設定: " ++ configUrl ++ cs "\n入力: " ++ input)
        (cs "URL_MISMATCH")) ∧
    configUrl <:+: (cs "URLが設定と一致しません\n設定: " ++ configUrl ++ cs "\n入力: " ++ input) ∧
    input <:+: (cs "URLが設定と一致しません\n設定: " ++ configUrl ++ cs "\n入力: " ++ input) ∧
    resolveRequests input configUrl = [] := by
  refine ⟨?_, ?_, ?_, rfl⟩
  · unfold parseTicketIdFromUrl
    rw [hpre]
    simp only [Bool.not_true, Bool.false_eq_true, if_false, hiu, hbu]
    rw [if_pos hne]
  · exact ⟨cs "URLが設定と一致しません\n設定: ", cs "\n入力: " ++ input, by simp⟩
  · exact ⟨cs "URLが設定と一致しません\n設定: " ++ configUrl ++ cs "\n入力: ", [], by simp⟩

/-- C1 witness: the amended theorem applied to scenario A's mismatching
pair. -/
theorem C1_url_mismatch_witness :
    parseTicketIdFromUrl (cs "https://other.example.com/issues/1234")
        (cs "https://t.example.com") =
      .error (mkPmToolError
        (cs "URLが設定と一致しません\n設定: " ++ cs "https://t.example.com" ++
          cs "\n入力: " ++ cs "https://other.example.com/issues/1234")
        (cs "URL_MISMATCH")) :=
  (C1_url_mismatch (cs "https://other.example.com/issues/1234") (cs "https://t.example.com")
    { protocol := cs "https:", hostname := cs "other.example.com", port := [],
      pathname := cs "/issues/1234" }
    { protocol := cs "https:", hostname := cs "t.example.com", port := [], pathname := cs "/" }
    (by decide) (by decide) (by decide) (by decide)).1

/-- bIssueSparse is a Backlog issue fixture with no assignee (the API
returns `null`), no start date, a `null` due date and `null` hours. -/
def bIssueSparse : BacklogIssue :=
  { id := 1, issueKey := cs "PROJ-123", projectId := 2, summary := .val (cs "S"),
    issueType := .val { id := 3, name := cs "Task" }, status := .val { id := 1, name := cs "Open" },
    priority := .jnull, assignee := .jnull, created := .val (cs "c"), updated := .val (cs "u"),
    startDate := .absent, dueDate := .jnull, estimatedHours := .jnull, actualHours := .val 5,
    description := .val (cs "d") }

/-- C3: the claim says no metadata key is ever present with an explicit
null or empty placeholder, but the Backlog fetch emits `''` for an absent
assignee (and type/status/priority), and the Redmine fetch passes an
explicit `null` through (`removeUndefinedFields` only deletes
`undefined`). -/
theorem C3_counterexample :
    (cs "assignee", MVal.mStr []) ∈ backlogFormatMeta bIssueSparse ∧
    (cs "priority", MVal.mStr []) ∈ backlogFormatMeta bIssueSparse ∧
    (cs "start_date", MVal.mNull) ∈ redmineFormatMeta (rIssueWithDesc (.val (cs "d"))) := by
  refine ⟨by decide, by decide, by decide⟩

/-- mEntry is the metadata entry a field contributes after
`removeUndefinedFields`: nothing when the value is `undefined`, the
key/value pair otherwise (`null` included). -/
def mEntry (k : Str) (v : MVal) : List (Str × MVal) :=
  if mvIsAbsent v then [] else [(k, v)]

theorem filter_cons_mEntry (k : Str) (v : MVal) (rest : List (Str × MVal)) :
    List.filter (fun kv => !mvIsAbsent kv.2) ((k, v) :: rest) =
      mEntry k v ++ List.filter (fun kv => !mvIsAbsent kv.2) rest := by
  by_cases h : mvIsAbsent v <;> simp [List.filter_cons, mEntry, h]

/-- C3 (amended): the Redmine fetch metadata consists of exactly the
entries for the fields whose remote value is not `undefined`, in source
order, each carrying the field's value unchanged — so explicit `null`
values pass through and only `undefined` fields are omitted; the Backlog
fetch always emits the `type`, `status`, `priority` and `assignee` keys
(with an empty-string placeholder when the remote value is absent) and
omits each of its four optional date/hour fields when that field is
absent. -/
theorem C3_meta_omission :
    (∀ issue : RedmineIssue,
      redmineFormatMeta issue =
        mEntry (cs "id") (.mInt issue.id) ++
        mEntry (cs "project") (mOfObj issue.project) ++
        mEntry (cs "tracker") (mOfObj issue.tracker) ++
        mEntry (cs "status") (mOfObj issue.status) ++
        mEntry (cs "priority") (mOfObj issue.priority) ++
        mEntry (cs "author") (mOfObj issue.author) ++
        mEntry (cs "assigned_to") (mOfObj issue.assigned_to) ++
        mEntry (cs "category") (mOfObj issue.category) ++
        mEntry (cs "estimated_hours") (mOfJInt issue.estimated_hours) ++
        mEntry (cs "start_date") (mOfJStr issue.start_date) ++
        mEntry (cs "due_date") (mOfJStr issue.due_date) ++
        mEntry (cs "done_ratio") (mOfJInt issue.done_ratio) ++
        mEntry (cs "created_on") (mOfJStr issue.created_on) ++
        mEntry (cs "updated_on") (mOfJStr issue.updated_on)) ∧
    (∀ (issue : RedmineIssue) (kv : Str × MVal),
      kv ∈ redmineFormatMeta issue → kv.2 ≠ .mAbsent) ∧
    (∀ issue : BacklogIssue,
      ((cs "type", MVal.mStr (nameOrEmpty issue.issueType)) ∈ backlogFormatMeta issue) ∧
      ((cs "status", MVal.mStr (nameOrEmpty issue.status)) ∈ backlogFormatMeta issue) ∧
      ((cs "priority", MVal.mStr (nameOrEmpty issue.priority)) ∈ backlogFormatMeta issue) ∧
      ((cs "assignee", MVal.mStr (nameOrEmpty issue.assignee)) ∈ backlogFormatMeta issue)) ∧
    (∀ o : JOpt NameObj, o = .jnull ∨ o = .absent → nameOrEmpty o = []) ∧
    (∀ issue : BacklogIssue, jTruthyS issue.startDate = false →
      ∀ v, (cs "start_date", v) ∉ backlogFormatMeta issue) ∧
    (∀ issue : BacklogIssue, jTruthyS issue.dueDate = false →
      ∀ v, (cs "due_date", v) ∉ backlogFormatMeta issue) ∧
    (∀ issue : BacklogIssue, issue.estimatedHours = .jnull ∨ issue.estimatedHours = .absent →
      ∀ v, (cs "estimated_hours", v) ∉ backlogFormatMeta issue) ∧
    (∀ issue : BacklogIssue, issue.actualHours = .jnull ∨ issue.actualHours = .absent →
      ∀ v, (cs "actual_hours", v) ∉ backlogFormatMeta issue) := by
  refine ⟨?_, ?_, ?_, ?_, ?_, ?_, ?_, ?_⟩
  · intro issue
    simp only [redmineFormatMeta, filter_cons_mEntry, List.filter_nil, List.append_nil,
      List.append_assoc]
  · intro issue kv hkv
    have h := (List.mem_filter.mp hkv).2
    cases hv : kv.2 <;> simp [mvIsAbsent, hv] at h ⊢
  · intro issue
    refine ⟨?_, ?_, ?_, ?_⟩ <;> simp [backlogFormatMeta]
  · intro o h
    rcases h with h | h <;> rw [h] <;> rfl
  · intro issue h v hmem
    unfold backlogFormatMeta at hmem
    rw [if_neg (show ¬(jTruthyS issue.startDate = true) from by simp [h])] at hmem
    repeat' split at hmem
    all_goals simp +decide at hmem
  · intro issue h v hmem
    unfold backlogFormatMeta at hmem
    rw [if_neg (show ¬(jTruthyS issue.dueDate = true) from by simp [h])] at hmem
    repeat' split at hmem
    all_goals simp +decide at hmem
  · intro issue h v hmem
    unfold backlogFormatMeta at hmem
    rcases h with h | h <;>
      (rw [h] at hmem
       repeat' split at hmem
       all_goals simp_all +decide)
  · intro issue h v hmem
    unfold backlogFormatMeta at hmem
    rcases h with h | h <;>
      (rw [h] at hmem
       repeat' split at hmem
       all_goals simp_all +decide)

/-- C3 witness: the amended theorem applied to a Redmine metadata entry,
to a null name object, and to the sparse Backlog fixture (absent
assignee, absent start date, null hours). -/
theorem C3_meta_omission_witness :
    (cs "id", MVal.mInt 9).2 ≠ MVal.mAbsent ∧
    nameOrEmpty (JOpt.jnull : JOpt NameObj) = [] ∧
    (cs "assignee", MVal.mStr []) ∈ backlogFormatMeta bIssueSparse ∧
    (cs "start_date", MVal.mNull) ∉ backlogFormatMeta bIssueSparse ∧
    (cs "estimated_hours", MVal.mInt 0) ∉ backlogFormatMeta bIssueSparse :=
  ⟨C3_meta_omission.2.1 (rIssueWithDesc (.val (cs "d"))) (cs "id", MVal.mInt 9) (by decide),
   C3_meta_omission.2.2.2.1 JOpt.jnull (Or.inl rfl),
   (C3_meta_omission.2.2.1 bIssueSparse).2.2.2,
   C3_meta_omission.2.2.2.2.1 bIssueSparse (by decide) MVal.mNull,
   C3_meta_omission.2.2.2.2.2.2.1 bIssueSparse (Or.inl rfl) (MVal.mInt 0)⟩

theorem handleApiResponse_404 (st em : Str) :
    handleApiResponse (ApiResp.http 404 st em : ApiResp α) =
      .error (mkApiErr (cs "指定された課題が見つかりません。") 404) := by
  simp [handleApiResponse]

theorem normalizeError_pmtool (e : PmError) (h : e.pmtool = true) :
    normalizeError e = e := by
  simp [normalizeError, h]

/-- bcfgOk is a valid Backlog configuration fixture. -/
def bcfgOk : BacklogConfig :=
  { url := some (cs "https://b.example.com"), api_key := some (cs "K") }

/-- budC4 is a Backlog update-data fixture requesting a dry run while
carrying one mappable field. -/
def budC4 : BUpdateData :=
  { frontmatter := { emptyBFm with estimated_hours := some 5 }, body := none, dryRun := true }

/-- C4: the claim says every backend's update with `dryRun = true`
returns a simulated result and attempts no network write, but the
Backlog `updateIssue` has no dry-run branch: with `dryRun = true` it
still issues the GET and the PATCH write and returns an unmarked success
result. -/
theorem C4_counterexample :
    budC4.dryRun = true ∧
    (updateIssue bcfgOk (cs "PROJ-123") budC4
        (fun _ => .ok bIssueSparse) (fun _ => .ok bIssueSparse)).2.map HttpReq.method =
      [cs "GET", cs "PATCH"] ∧
    (updateIssue bcfgOk (cs "PROJ-123") budC4
        (fun _ => .ok bIssueSparse) (fun _ => .ok bIssueSparse)).1 =
      .ok { success := true, message := none, issue := some bIssueSparse } := by
  refine ⟨rfl, ?_, ?_⟩ <;> rfl

/-- C4 (amended): the Redmine update supports dry-run as the claim
states — with `dryRun` set it returns success with a message marked
`[DRY RUN]` and issues no request — but the Backlog update ignores the
flag entirely: whatever `dryRun` holds, it issues the GET and the PATCH
write and returns a result with no simulated marker. -/
theorem C4_dry_run :
    (∀ (cfg : RedmineConfig) (ticketId : Str) (ud : RUpdateData)
        (putNet : Nat → ApiResp Unit),
      truthyS cfg.url = true →
      (truthyS cfg.api_key || (truthyS cfg.username && truthyS cfg.password)) = true →
      buildIssueUpdateData ud ≠ [] → ud.dryRun = true →
      updateTicket cfg ticketId ud putNet =
        (.ok { success := true,
               message := cs "[DRY RUN] チケット #" ++ ticketId ++ cs " の更新をシミュレートしました",
               updated := buildIssueUpdateData ud, dryRun := true }, [])) ∧
    (∀ (cfg : BacklogConfig) (issueKey : Str) (ud : BUpdateData)
        (getNet patchNet : Nat → ApiResp BacklogIssue) (orig upd : BacklogIssue),
      truthyS cfg.url = true → truthyS cfg.api_key = true →
      getNet 0 = .ok orig → patchNet 0 = .ok upd →
      buildUpdatePayload ud orig ≠ [] →
      updateIssue cfg issueKey ud getNet patchNet =
        (.ok { success := true, message := none, issue := some upd },
         [{ method := cs "GET", headers := backlogReqHeaders },
          { method := cs "PATCH", headers := backlogReqHeaders }])) := by
  constructor
  · intro cfg ticketId ud putNet hurl hauth hpl hdry
    simp [updateTicket, hurl, hauth, hpl, hdry]
  · intro cfg issueKey ud getNet patchNet orig upd hurl hkey hg hp hpl
    have hg1 : retryModel (fun i => handleApiResponse (getNet i)) 3 backlogShouldRetryFetch =
        (.ok orig, 1) :=
      retryModel_first_ok _ _ _ _ (by rw [hg]; rfl)
    have hp1 : retryModel (fun i => handleApiResponse (patchNet i)) 2 backlogShouldRetryUpdate =
        (.ok upd, 1) :=
      retryModel_first_ok _ _ _ _ (by rw [hp]; rfl)
    simp [updateIssue, hurl, hkey, hg1, hp1, hpl]

/-- C4 witness: the amended theorem applied to a Redmine dry-run update
carrying `comment = "done"` (scenario B) and to the Backlog fixture. -/
theorem C4_dry_run_witness :
    updateTicket cfgBothC10 (cs "1234")
        { comment := some (cs "done"), description := none, status := none,
          assigned_to := none, done_ratio := none, estimated_hours := none,
          start_date := none, due_date := none, priority := none, category := none,
          dryRun := true, frontmatter := emptyRFm, body := none }
        (fun _ => .ok ()) =
      (.ok { success := true,
             message := cs "[DRY RUN] チケット #" ++ cs "1234" ++ cs " の更新をシミュレートしました",
             updated := [(cs "notes", .pStr (cs "done"))], dryRun := true }, []) := by
  have h := C4_dry_run.1 cfgBothC10 (cs "1234")
    { comment := some (cs "done"), description := none, status := none,
      assigned_to := none, done_ratio := none, estimated_hours := none,
      start_date := none, due_date := none, priority := none, category := none,
      dryRun := true, frontmatter := emptyRFm, body := none }
    (fun _ => .ok ()) (by decide) (by decide) (by decide) rfl
  rw [h]
  rfl

/-- C7: the claim says every backend's update surfaces a 404 as an
`ApiError` naming the specific ticket identifier, but the Backlog error
handler raises the fixed message `指定された課題が見つかりません。`,
which does not contain the issue key. -/
theorem C7_counterexample :
    (updateIssue bcfgOk (cs "PROJ-123") budC4
        (fun _ => .ok bIssueSparse) (fun _ => .http 404 (cs "Not Found") [])).1 =
      .error (mkApiErr (cs "指定された課題が見つかりません。") 404) ∧
    strInfix (cs "PROJ-123") (cs "指定された課題が見つかりません。") = false := by
  refine ⟨rfl, by decide⟩

/-- C7 (amended): on a 404 from the write, the Redmine update raises an
`ApiError` with status 404 whose message names the ticket id, as the
claim states; the Backlog update raises an `ApiError` with status 404
whose message is a fixed string independent of the issue key (a generic
not-found, naming no identifier). -/
theorem C7_not_found :
    (∀ (cfg : RedmineConfig) (ticketId : Str) (ud : RUpdateData)
        (putNet : Nat → ApiResp Unit) (st bt : Str),
      truthyS cfg.url = true →
      (truthyS cfg.api_key || (truthyS cfg.username && truthyS cfg.password)) = true →
      buildIssueUpdateData ud ≠ [] → ud.dryRun = false →
      putNet 0 = .http 404 st bt →
      (updateTicket cfg ticketId ud putNet).1 =
        .error (mkApiErr (cs "チケット #" ++ ticketId ++ cs " が見つかりません (404 Not Found)") 404) ∧
      ticketId <:+: (cs "チケット #" ++ ticketId ++ cs " が見つかりません (404 Not Found)")) ∧
    (∀ (cfg : BacklogConfig) (issueKey : Str) (ud : BUpdateData)
        (getNet patchNet : Nat → ApiResp BacklogIssue) (orig : BacklogIssue) (st em : Str),
      truthyS cfg.url = true → truthyS cfg.api_key = true →
      getNet 0 = .ok orig → buildUpdatePayload ud orig ≠ [] →
      patchNet 0 = .http 404 st em →
      (updateIssue cfg issueKey ud getNet patchNet).1 =
        .error (mkApiErr (cs "指定された課題が見つかりません。") 404)) := by
  constructor
  · intro cfg ticketId ud putNet st bt hurl hauth hpl hdry hput
    have hcls : classifyResp (putNet 0) = .error (mkApiErr (cs "APIエラー: " ++ st) 404) := by
      rw [hput]; exact classifyResp_404 st bt
    have hapi := apiRequest_first_error putNet _ hcls (isTransientError_apiErr_404 _)
    rw [normalizeError_pmtool _ rfl] at hapi
    constructor
    · simp [updateTicket, hurl, hauth, hpl, hdry, hapi, mkApiErr]
    · exact ⟨cs "チケット #", cs " が見つかりません (404 Not Found)", by simp⟩
  · intro cfg issueKey ud getNet patchNet orig st em hurl hkey hg hpl hpatch
    have hg1 : retryModel (fun i => handleApiResponse (getNet i)) 3 backlogShouldRetryFetch =
        (.ok orig, 1) :=
      retryModel_first_ok _ _ _ _ (by rw [hg]; rfl)
    have hp1 : retryModel (fun i => handleApiResponse (patchNet i)) 2 backlogShouldRetryUpdate =
        (.error (mkApiErr (cs "指定された課題が見つかりません。") 404), 1) :=
      retryModel_no_retry _ _ _ _ (by rw [hpatch]; exact handleApiResponse_404 st em) (by decide)
    simp [updateIssue, hurl, hkey, hg1, hp1, hpl]

/-- C7 witness: the amended theorem applied to a Redmine update whose
PUT returns 404, and to the Backlog fixture. -/
theorem C7_not_found_witness :
    (updateTicket cfgBothC10 (cs "1234")
        { comment := some (cs "done"), description := none, status := none,
          assigned_to := none, done_ratio := none, estimated_hours := none,
          start_date := none, due_date := none, priority := none, category := none,
          dryRun := false, frontmatter := emptyRFm, body := none }
        (fun _ => .http 404 (cs "Not Found") (cs "gone"))).1 =
      .error (mkApiErr (cs "チケット #" ++ cs "1234" ++ cs " が見つかりません (404 Not Found)") 404) :=
  (C7_not_found.1 cfgBothC10 (cs "1234")
    { comment := some (cs "done"), description := none, status := none,
      assigned_to := none, done_ratio := none, estimated_hours := none,
      start_date := none, due_date := none, priority := none, category := none,
      dryRun := false, frontmatter := emptyRFm, body := none }
    (fun _ => .http 404 (cs "Not Found") (cs "gone")) (cs "Not Found") (cs "gone")
    (by decide) (by decide) (by decide) rfl rfl).1

/-- budEmpty is a Backlog update-data fixture with nothing to update. -/
def budEmpty : BUpdateData :=
  { frontmatter := emptyBFm, body := none, dryRun := false }

/-- C9: the claim says an update with no mappable fields raises a
`ValidationError` before any network call, but the Backlog `updateIssue`
first issues the GET of the current issue and, finding the payload empty,
returns success (no error at all). -/
theorem C9_counterexample :
    (updateIssue bcfgOk (cs "PROJ-123") budEmpty
        (fun _ => .ok bIssueSparse) (fun _ => .ok bIssueSparse)) =
      (.ok { success := true, message := some (cs "更新する項目がありません"), issue := none },
       [{ method := cs "GET", headers := backlogReqHeaders }]) ∧
    (updateIssue bcfgOk (cs "PROJ-123") budEmpty
        (fun _ => .ok bIssueSparse) (fun _ => .ok bIssueSparse)).2 ≠ [] := by
  refine ⟨rfl, by decide⟩

/-- C9 (amended): the Redmine update raises `ValidationError` before any
network request when the merged update data yields no mappable fields, as
the claim states; the Backlog update instead first performs the GET of
the current issue and then returns a success result ("nothing to
update") rather than raising a `ValidationError`. -/
theorem C9_no_fields :
    (∀ (cfg : RedmineConfig) (ticketId : Str) (ud : RUpdateData)
        (putNet : Nat → ApiResp Unit),
      truthyS cfg.url = true →
      (truthyS cfg.api_key || (truthyS cfg.username && truthyS cfg.password)) = true →
      buildIssueUpdateData ud = [] →
      updateTicket cfg ticketId ud putNet =
        (.error (mkValidationErr (cs "更新する内容が指定されていません")), [])) ∧
    (∀ (cfg : BacklogConfig) (issueKey : Str) (ud : BUpdateData)
        (getNet patchNet : Nat → ApiResp BacklogIssue) (orig : BacklogIssue),
      truthyS cfg.url = true → truthyS cfg.api_key = true →
      getNet 0 = .ok orig → buildUpdatePayload ud orig = [] →
      updateIssue cfg issueKey ud getNet patchNet =
        (.ok { success := true, message := some (cs "更新する項目がありません"), issue := none },
         [{ method := cs "GET", headers := backlogReqHeaders }])) := by
  constructor
  · intro cfg ticketId ud putNet hurl hauth hempty
    simp [updateTicket, hurl, hauth, hempty]
  · intro cfg issueKey ud getNet patchNet orig hurl hkey hg hempty
    have hg1 : retryModel (fun i => handleApiResponse (getNet i)) 3 backlogShouldRetryFetch =
        (.ok orig, 1) :=
      retryModel_first_ok _ _ _ _ (by rw [hg]; rfl)
    simp [updateIssue, hurl, hkey, hg1, hempty]

/-- C9 witness: the amended theorem applied to a Redmine update with no
fields and to the Backlog fixture with an empty front matter. -/
theorem C9_no_fields_witness :
    updateTicket cfgBothC10 (cs "1234")
        { comment := none, description := none, status := none, assigned_to := none,
          done_ratio := none, estimated_hours := none, start_date := none, due_date := none,
          priority := none, category := none, dryRun := false, frontmatter := emptyRFm,
          body := none }
        (fun _ => .ok ()) =
      (.error (mkValidationErr (cs "更新する内容が指定されていません")), []) :=
  C9_no_fields.1 cfgBothC10 (cs "1234")
    { comment := none, description := none, status := none, assigned_to := none,
      done_ratio := none, estimated_hours := none, start_date := none, due_date := none,
      priority := none, category := none, dryRun := false, frontmatter := emptyRFm,
      body := none }
    (fun _ => .ok ()) (by decide) (by decide) rfl

/-- udC6 is a Redmine update-data fixture whose explicit `status`
parameter is present but empty while the front matter carries a status
id. -/
def udC6 : RUpdateData :=
  { comment := none, description := none, status := some [], assigned_to := none,
    done_ratio := none, estimated_hours := none, start_date := none, due_date := none,
    priority := none, category := none, dryRun := false,
    frontmatter := { emptyRFm with status := some 5 }, body := none }

/-- C6: the claim says that whenever both an explicit parameter and a
front-matter value are present for a field, the payload uses the explicit
value — but an explicitly present empty string is falsy, so
`buildIssueUpdateData` falls through to the front matter: with
`status = ""` and front-matter status id 5, the payload carries 5, not
the parse of the explicit parameter. -/
theorem C6_counterexample :
    udC6.status = some [] ∧
    buildIssueUpdateData udC6 = [(cs "status_id", PVal.pInt 5)] ∧
    PVal.pInt 5 ≠ jsParseIntPV (udC6.status.getD []) := by
  refine ⟨rfl, rfl, by decide⟩

/-- C6 (amended): whenever the explicit parameter of a dual-source field
is present and non-empty (for the string-guarded fields) or present (for
`done_ratio` and `estimated_hours`, whose guards only test definedness),
the outgoing payload carries the entry derived from the explicit
parameter, and the payload does not depend on the front matter at all; an
explicitly empty string falls back to the front-matter value (see the
counterexample). -/
theorem C6_explicit_override (ud : RUpdateData) (dr eh : Str)
    (hst : truthyS ud.status = true)
    (has : truthyS ud.assigned_to = true)
    (hdr : ud.done_ratio = some dr)
    (heh : ud.estimated_hours = some eh)
    (hsd : truthyS ud.start_date = true)
    (hdd : truthyS ud.due_date = true) :
    ((cs "status_id", jsParseIntPV (ud.status.getD [])) ∈ buildIssueUpdateData ud) ∧
    ((cs "assigned_to_id", jsParseIntPV (ud.assigned_to.getD [])) ∈ buildIssueUpdateData ud) ∧
    ((cs "done_ratio", jsParseIntPV dr) ∈ buildIssueUpdateData ud) ∧
    ((cs "estimated_hours", PVal.pFloatParsed eh) ∈ buildIssueUpdateData ud) ∧
    ((cs "start_date", PVal.pStr (ud.start_date.getD [])) ∈ buildIssueUpdateData ud) ∧
    ((cs "due_date", PVal.pStr (ud.due_date.getD [])) ∈ buildIssueUpdateData ud) ∧
    (∀ fm : RFrontmatter,
      buildIssueUpdateData { ud with frontmatter := fm } = buildIssueUpdateData ud) := by
  obtain ⟨c, d, st, as2, dr2, eh2, sd, dd, pr, ca, dry, fm0, bd⟩ := ud
  simp only at hst has hdr heh hsd hdd
  subst hdr heh
  refine ⟨?_, ?_, ?_, ?_, ?_, ?_, ?_⟩
  · simp [buildIssueUpdateData, hst]
  · simp [buildIssueUpdateData, has]
  · simp [buildIssueUpdateData]
  · simp [buildIssueUpdateData]
  · simp [buildIssueUpdateData, hsd]
  · simp [buildIssueUpdateData, hdd]
  · intro fm
    simp [buildIssueUpdateData, hst, has, hsd, hdd]

/-- C6 witness: the amended theorem applied to an update where every
dual-source field is given explicitly while the front matter carries
different values. -/
theorem C6_explicit_override_witness :
    (cs "status_id", jsParseIntPV (cs "3")) ∈ buildIssueUpdateData
      { comment := none, description := none, status := some (cs "3"),
        assigned_to := some (cs "7"), done_ratio := some (cs "50"),
        estimated_hours := some (cs "2.5"), start_date := some (cs "2025-01-01"),
        due_date := some (cs "2025-02-01"), priority := none, category := none,
        dryRun := false,
        frontmatter := { status := some 9, assigned_to := some 8, done_ratio := some 10,
                         estimated_hours := .val 4, start_date := some (cs "2024-01-01"),
                         due_date := some (cs "2024-02-01") },
        body := none } :=
  (C6_explicit_override _ (cs "50") (cs "2.5") (by decide) (by decide) rfl rfl
    (by decide) (by decide)).1

theorem dropWhile_eq_self_of_length (p : Char → Bool) (l : Str)
    (h : (l.dropWhile p).length = l.length) : l.dropWhile p = l := by
  induction l with
  | nil => rfl
  | cons c r ih =>
    by_cases hp : p c
    · rw [List.dropWhile_cons_of_pos hp] at h ⊢
      have h2 := length_dropWhile_le p r
      simp [List.length_cons] at h
      exfalso
      omega
    · rw [List.dropWhile_cons_of_neg hp]

theorem jsTrim_parts (s : Str) (hs : jsTrim s = s) :
    s.dropWhile jsIsSpace = s ∧ s.reverse.dropWhile jsIsSpace = s.reverse := by
  have hlen : (jsTrim s).length = s.length := by rw [hs]
  unfold jsTrim at hlen
  simp only [List.length_reverse] at hlen
  have h1 : (s.dropWhile jsIsSpace).length ≤ s.length := length_dropWhile_le _ _
  have h2 : (((s.dropWhile jsIsSpace).reverse).dropWhile jsIsSpace).length ≤
      (s.dropWhile jsIsSpace).reverse.length := length_dropWhile_le _ _
  simp only [List.length_reverse] at h2
  have hL : (s.dropWhile jsIsSpace).length = s.length := by omega
  have hLeq := dropWhile_eq_self_of_length jsIsSpace s hL
  refine ⟨hLeq, ?_⟩
  have h3 : ((s.reverse.dropWhile jsIsSpace).reverse) = s := by
    rw [jsTrim, hLeq] at hs
    exact hs
  have h4 := congrArg List.reverse h3
  simpa using h4

theorem head_not_space (s : Str) (c : Char) (r : Str)
    (hds : s.dropWhile jsIsSpace = s) (hcr : s = c :: r) : jsIsSpace c = false := by
  subst hcr
  by_cases hp : jsIsSpace c
  · rw [List.dropWhile_cons_of_pos hp] at hds
    have h1 := length_dropWhile_le jsIsSpace r
    have h2 := congrArg List.length hds
    simp [List.length_cons] at h2
    exfalso
    omega
  · simp [hp]

theorem dropWhile_ws_append (pre t : Str) (h : ∀ c ∈ pre, jsIsSpace c = true) :
    (pre ++ t).dropWhile jsIsSpace = t.dropWhile jsIsSpace := by
  induction pre with
  | nil => rfl
  | cons c r ih =>
    rw [List.cons_append, List.dropWhile_cons_of_pos (h c (List.mem_cons_self c r))]
    exact ih (fun x hx => h x (List.mem_cons_of_mem _ hx))

theorem dropWhile_ws_all (l : Str) (h : ∀ c ∈ l, jsIsSpace c = true) :
    l.dropWhile jsIsSpace = [] := by
  have h1 := dropWhile_ws_append l [] h
  simpa using h1

theorem jsTrim_sandwich (pre s suf : Str) (hpre : ∀ c ∈ pre, jsIsSpace c = true)
    (hsuf : ∀ c ∈ suf, jsIsSpace c = true) (hs : jsTrim s = s) :
    jsTrim (pre ++ s ++ suf) = s := by
  obtain ⟨hL, hR⟩ := jsTrim_parts s hs
  unfold jsTrim
  rw [List.append_assoc, dropWhile_ws_append pre (s ++ suf) hpre]
  cases hcase : s with
  | nil =>
    simp only [hcase, List.nil_append]
    rw [dropWhile_ws_all suf hsuf]
    rfl
  | cons c r =>
    have hc : jsIsSpace c = false := head_not_space s c r hL hcase
    rw [List.cons_append, List.dropWhile_cons_of_neg (by simp [hc])]
    rw [show c :: (r ++ suf) = (c :: r) ++ suf from by simp]
    rw [List.reverse_append]
    rw [dropWhile_ws_append suf.reverse ((c :: r).reverse)
      (fun x hx => hsuf x (List.mem_reverse.mp hx))]
    rw [hcase] at hR
    rw [hR]
    simp

theorem takeWhile_neg_append (xs : Str) (y : Char) (rest : Str) (p : Char → Bool)
    (hxs : ∀ c ∈ xs, p c = true) (hy : p y = false) :
    (xs ++ y :: rest).takeWhile p = xs := by
  induction xs with
  | nil =>
    rw [List.nil_append]
    apply List.takeWhile_cons_of_neg
    simp [hy]
  | cons c r ih =>
    rw [List.cons_append, List.takeWhile_cons_of_pos (hxs c (List.mem_cons_self c r))]
    rw [ih (fun x hx => hxs x (List.mem_cons_of_mem _ hx))]

theorem title_chars_ne_nl (title : Str) (htn : '\n' ∉ title) :
    ∀ c ∈ title, (decide (c ≠ '\n')) = true := by
  intro c hc
  simp only [decide_eq_true_eq]
  intro he
  exact htn (he ▸ hc)

theorem setextSubj_render (title body : Str) (ht0 : title ≠ []) (htn : '\n' ∉ title)
    (htt : jsTrim title = title) :
    setextSubjMatch (renderHeading title body) = some title := by
  unfold renderHeading
  rw [renderTitleLine, if_neg ht0]
  unfold setextSubjMatch
  have htw := takeWhile_neg_append title '\n'
    (List.replicate (max title.length 25) '=' ++ '\n' :: '\n' :: (body ++ ['\n']))
    (fun c => decide (c ≠ '\n')) (title_chars_ne_nl title htn) (by decide)
  simp only [htw, if_neg ht0, List.drop_left]
  rw [show max title.length 25 = (max title.length 25 - 1) + 1 from by omega,
    List.replicate_succ]
  simp [htt]

theorem setextDescr_render (title body : Str) (ht0 : title ≠ []) (htn : '\n' ∉ title)
    (hbt : jsTrim body = body) :
    setextDescrMatch (renderHeading title body) = some body := by
  unfold renderHeading
  rw [renderTitleLine, if_neg ht0]
  unfold setextDescrMatch
  have htw := takeWhile_neg_append title '\n'
    (List.replicate (max title.length 25) '=' ++ '\n' :: '\n' :: (body ++ ['\n']))
    (fun c => decide (c ≠ '\n')) (title_chars_ne_nl title htn) (by decide)
  simp only [htw, if_neg ht0, List.drop_left]
  have hu := takeWhile_neg_append (List.replicate (max title.length 25) '=') '\n'
    ('\n' :: (body ++ ['\n'])) (fun c => decide (c = '='))
    (fun c hc => by simp [List.eq_of_mem_replicate hc]) (by decide)
  rw [show (List.replicate (max title.length 25) '=' ++ '\n' :: '\n' :: (body ++ ['\n'])) =
      (List.replicate (max title.length 25) '=' ++ '\n' :: ('\n' :: (body ++ ['\n'])))
    from rfl] at hu
  simp only [hu]
  have hne : List.replicate (max title.length 25) '=' ≠ [] := by
    rw [show max title.length 25 = (max title.length 25 - 1) + 1 from by omega,
      List.replicate_succ]
    simp
  rw [if_neg hne, List.drop_left]
  have hs : jsTrim ('\n' :: (body ++ ['\n'])) = body := by
    rw [show ('\n' :: (body ++ ['\n'])) = ['\n'] ++ body ++ ['\n'] from by simp]
    exact jsTrim_sandwich ['\n'] body ['\n'] (by decide) (by decide) hbt
  simp [hs]

theorem hash_title_chars_ne_nl (title : Str) (htn : '\n' ∉ title) :
    ∀ c ∈ ('#' :: ' ' :: title), (decide (c ≠ '\n')) = true := by
  intro c hc
  rcases List.mem_cons.mp hc with h | hc2
  · subst h; decide
  · rcases List.mem_cons.mp hc2 with h | hc3
    · subst h; decide
    · exact title_chars_ne_nl title htn c hc3

theorem setextSubj_atx_none (title body : Str) (htn : '\n' ∉ title) :
    setextSubjMatch ('#' :: ' ' :: (title ++ '\n' :: '\n' :: body)) = none := by
  unfold setextSubjMatch
  have htw : List.takeWhile (fun c => decide (c ≠ '\n'))
      ('#' :: ' ' :: (title ++ '\n' :: '\n' :: body)) = '#' :: ' ' :: title :=
    takeWhile_neg_append ('#' :: ' ' :: title) '\n' ('\n' :: body)
      (fun c => decide (c ≠ '\n')) (hash_title_chars_ne_nl title htn) (by decide)
  have hdrop : List.drop ('#' :: ' ' :: title).length
      ('#' :: ' ' :: (title ++ '\n' :: '\n' :: body)) = '\n' :: ('\n' :: body) :=
    List.drop_left _ _
  simp only [htw, hdrop, if_neg (List.cons_ne_nil '#' (' ' :: title))]
  split
  · rename_i heq
    simp at heq
  · rfl

theorem setextDescr_atx_none (title body : Str) (htn : '\n' ∉ title) :
    setextDescrMatch ('#' :: ' ' :: (title ++ '\n' :: '\n' :: body)) = none := by
  unfold setextDescrMatch
  have htw : List.takeWhile (fun c => decide (c ≠ '\n'))
      ('#' :: ' ' :: (title ++ '\n' :: '\n' :: body)) = '#' :: ' ' :: title :=
    takeWhile_neg_append ('#' :: ' ' :: title) '\n' ('\n' :: body)
      (fun c => decide (c ≠ '\n')) (hash_title_chars_ne_nl title htn) (by decide)
  have hdrop : List.drop ('#' :: ' ' :: title).length
      ('#' :: ' ' :: (title ++ '\n' :: '\n' :: body)) = '\n' :: ('\n' :: body) :=
    List.drop_left _ _
  simp only [htw, hdrop, if_neg (List.cons_ne_nil '#' (' ' :: title))]
  simp [List.takeWhile_cons_of_neg]

theorem jsTrim_nl_cons (body : Str) (hbt : jsTrim body = body) :
    jsTrim ('\n' :: body) = body := by
  rw [show ('\n' :: body) = ['\n'] ++ body ++ [] from by simp]
  exact jsTrim_sandwich ['\n'] body [] (by decide) (by simp) hbt

theorem takeWhile_ws_one (title rest : Str) (ht0 : title ≠ [])
    (htt : jsTrim title = title) :
    List.takeWhile jsIsSpace (' ' :: (title ++ rest)) = [' '] := by
  obtain ⟨c, r, hcr⟩ := List.exists_cons_of_ne_nil ht0
  have hc : jsIsSpace c = false := head_not_space title c r (jsTrim_parts title htt).1 hcr
  rw [List.takeWhile_cons_of_pos (by decide)]
  rw [hcr, List.cons_append, List.takeWhile_cons_of_neg (by simp [hc])]

theorem atxSubjTry_doc (title body : Str) (ht0 : title ≠ []) (htn : '\n' ∉ title)
    (htt : jsTrim title = title) :
    atxSubjTry ('#' :: ' ' :: (title ++ '\n' :: '\n' :: body)) = some title := by
  have ht2 : List.takeWhile (fun x => decide (x ≠ '\n')) (title ++ '\n' :: '\n' :: body) =
      title :=
    takeWhile_neg_append title '\n' ('\n' :: body) _ (title_chars_ne_nl title htn) (by decide)
  show atxSubjBack (' ' :: (title ++ '\n' :: '\n' :: body))
      (List.takeWhile jsIsSpace (' ' :: (title ++ '\n' :: '\n' :: body))).length = some title
  rw [takeWhile_ws_one title ('\n' :: '\n' :: body) ht0 htt]
  show atxSubjBack (' ' :: (title ++ '\n' :: '\n' :: body)) 1 = some title
  simp only [atxSubjBack, List.drop_succ_cons, List.drop_zero, ht2, if_neg ht0, htt]

theorem atxSubj_doc (title body : Str) (ht0 : title ≠ []) (htn : '\n' ∉ title)
    (htt : jsTrim title = title) :
    atxSubjScan ('#' :: ' ' :: (title ++ '\n' :: '\n' :: body)) = some title := by
  rw [atxSubjScan]
  rw [atxSubjTry_doc title body ht0 htn htt]

theorem atxDescrTry_doc (title body : Str) (ht0 : title ≠ []) (htn : '\n' ∉ title)
    (hbt : jsTrim body = body) :
    atxDescrTry (title ++ '\n' :: '\n' :: body) = some body := by
  unfold atxDescrTry
  have ht2 : List.takeWhile (fun x => decide (x ≠ '\n')) (title ++ '\n' :: '\n' :: body) =
      title :=
    takeWhile_neg_append title '\n' ('\n' :: body) _ (title_chars_ne_nl title htn) (by decide)
  have hdrop : List.drop title.length (title ++ '\n' :: '\n' :: body) = '\n' :: ('\n' :: body) :=
    List.drop_left _ _
  simp only [ht2, hdrop, if_neg ht0]
  simp only [if_neg (List.cons_ne_nil '\n' body)]
  rw [jsTrim_nl_cons body hbt]

theorem atxDescr_doc (title body : Str) (ht0 : title ≠ []) (htn : '\n' ∉ title)
    (htt : jsTrim title = title) (hbt : jsTrim body = body) :
    atxDescrMatch ('#' :: ' ' :: (title ++ '\n' :: '\n' :: body)) = some body := by
  show atxDescrBack (' ' :: (title ++ '\n' :: '\n' :: body))
      (List.takeWhile jsIsSpace (' ' :: (title ++ '\n' :: '\n' :: body))).length = some body
  rw [takeWhile_ws_one title ('\n' :: '\n' :: body) ht0 htt]
  show atxDescrBack (' ' :: (title ++ '\n' :: '\n' :: body)) 1 = some body
  simp only [atxDescrBack, List.drop_succ_cons, List.drop_zero]
  rw [atxDescrTry_doc title body ht0 htn hbt]

/-- C8: the claim says splitting the rendered document yields exactly the
original title and body for every pair whose body does not begin with a
heading line, but both extractions apply `.trim()`: a body with trailing
(or leading) whitespace does not survive the round trip. -/
theorem C8_counterexample :
    splitTicketHeading (renderHeading (cs "T") (cs "b ")) ≠ (cs "T", cs "b ") ∧
    splitTicketHeading (renderHeading (cs "T") (cs "b ")) = (cs "T", cs "b") := by
  refine ⟨by decide, by decide⟩

/-- C8 (amended): for every nonempty single-line title equal to its own
trim and every body equal to its own trim, splitting recovers exactly the
title and body — both from the setext document that `formatMarkdown`
renders and from the equivalent atx-notation document
(`# title`, blank line, body). -/
theorem C8_split_render (title body : Str) (ht0 : title ≠ []) (htn : '\n' ∉ title)
    (htt : jsTrim title = title) (hbt : jsTrim body = body) :
    splitTicketHeading (renderHeading title body) = (title, body) ∧
    splitTicketHeading ('#' :: ' ' :: (title ++ '\n' :: '\n' :: body)) = (title, body) := by
  have hdoc1 : renderHeading title body ≠ [] := by
    unfold renderHeading
    rw [renderTitleLine, if_neg ht0]
    obtain ⟨c, r, hcr⟩ := List.exists_cons_of_ne_nil ht0
    rw [hcr]
    simp
  constructor
  · unfold splitTicketHeading extractSubjectFromMarkdown extractDescriptionFromMarkdown
    rw [if_neg hdoc1, if_neg hdoc1]
    rw [setextSubj_render title body ht0 htn htt,
        setextDescr_render title body ht0 htn hbt]
  · unfold splitTicketHeading extractSubjectFromMarkdown extractDescriptionFromMarkdown
    rw [if_neg (List.cons_ne_nil '#' (' ' :: (title ++ '\n' :: '\n' :: body))),
        if_neg (List.cons_ne_nil '#' (' ' :: (title ++ '\n' :: '\n' :: body)))]
    rw [setextSubj_atx_none title body htn, setextDescr_atx_none title body htn]
    rw [atxSubj_doc title body ht0 htn htt, atxDescr_doc title body ht0 htn htt hbt]

/-- C8 witness: the amended theorem applied to a concrete title/body
pair, for both notations. -/
theorem C8_split_render_witness :
    splitTicketHeading (renderHeading (cs "My title") (cs "line1")) =
      (cs "My title", cs "line1") ∧
    splitTicketHeading ('#' :: ' ' :: (cs "My title" ++ '\n' :: '\n' :: cs "line1")) =
      (cs "My title", cs "line1") :=
  C8_split_render (cs "My title") (cs "line1") (by decide) (by decide) (by decide) (by decide)
